import Mathlib

/-!
Verification development for the structured-output (writer/section) engine of
fftools/ffprobe.c: the static section registry, the writer cursor state machine
(writer_print_section_header / writer_print_section_footer / writer_print_integer /
writer_print_string), the string validator, and the default, compact, csv and flat
rendering backends.  C strings are embedded as byte lists, machine integers as
Nat/Int, the mutable WriterContext as an explicit state record, and the
function-pointer Writer tables as records of Lean functions.
-/

/-- Byte string: the embedding of a C `char *` buffer (no NUL terminator stored;
the end of the list is the terminator). -/
abbrev CStr : Type := List Nat

/-- Bytes of an ASCII Lean string literal (every section name, option value and
key used in this development is plain ASCII, where code points equal bytes). -/
def ascii (s : String) : CStr := s.data.map Char.toNat

/-- Flag `SECTION_FLAG_IS_WRAPPER`: the section only contains other sections. -/
def SECTION_FLAG_IS_WRAPPER : Nat := 1

/-- Flag `SECTION_FLAG_IS_ARRAY`: the section contains an array of elements. -/
def SECTION_FLAG_IS_ARRAY : Nat := 2

/-- Flag `SECTION_FLAG_HAS_VARIABLE_FIELDS`. -/
def SECTION_FLAG_HAS_VARIABLE_FIELDS : Nat := 4

/-- Flag `SECTION_FLAG_HAS_TYPE`. -/
def SECTION_FLAG_HAS_TYPE : Nat := 8

/-- Bound `SECTION_MAX_NB_LEVELS` on the nesting depth of the writer cursor. -/
def SECTION_MAX_NB_LEVELS : Nat := 12

/-- Modelled from the spec: `get_type` accessors (`get_raw_string_type`,
`get_packet_side_data_type`, `get_frame_side_data_type`, `get_stream_group_type`
in the source) resolve the opaque per-instance data to a short type tag via
lookup tables that live outside this repository slice; the opaque data is
embedded as the resolved tag itself, so every accessor is the identity. -/
def get_raw_string_type (data : String) : String := data

/-- Modelled from the spec: packet side-data type accessor, see
`get_raw_string_type`. -/
def get_packet_side_data_type (data : String) : String := data

/-- Modelled from the spec: frame side-data type accessor, see
`get_raw_string_type`. -/
def get_frame_side_data_type (data : String) : String := data

/-- Modelled from the spec: stream-group type accessor, see
`get_raw_string_type`. -/
def get_stream_group_type (data : String) : String := data

/-- Embedding of `struct section` of ffprobe.c.  `entriesToShow` and
`showAllEntries` are the per-section display filter (an `AVDictionary *` and an
int in the source), mutated only by `mark_section_show_entries` before a run. -/
structure Section where
  id : Nat
  name : String
  flags : Nat := 0
  childrenIds : List Nat := []
  elementName : Option String := none
  uniqueName : Option String := none
  entriesToShow : List String := []
  getTypeTag : Option (String → String) := none
  showAllEntries : Bool := false

/-- Section id constants, in the order of the `SectionID` enum of the source
(`SECTION_ID_NONE = -1` is represented by the parent id value `-1 : Int`). -/
def SECTION_ID_CHAPTER : Nat := 0
def SECTION_ID_CHAPTER_TAGS : Nat := 1
def SECTION_ID_CHAPTERS : Nat := 2
def SECTION_ID_ERROR : Nat := 3
def SECTION_ID_FORMAT : Nat := 4
def SECTION_ID_FORMAT_TAGS : Nat := 5
def SECTION_ID_FRAME : Nat := 6
def SECTION_ID_FRAMES : Nat := 7
def SECTION_ID_FRAME_TAGS : Nat := 8
def SECTION_ID_FRAME_SIDE_DATA_LIST : Nat := 9
def SECTION_ID_FRAME_SIDE_DATA : Nat := 10
def SECTION_ID_FRAME_SIDE_DATA_TIMECODE_LIST : Nat := 11
def SECTION_ID_FRAME_SIDE_DATA_TIMECODE : Nat := 12
def SECTION_ID_FRAME_SIDE_DATA_COMPONENT_LIST : Nat := 13
def SECTION_ID_FRAME_SIDE_DATA_COMPONENT : Nat := 14
def SECTION_ID_FRAME_SIDE_DATA_PIECE_LIST : Nat := 15
def SECTION_ID_FRAME_SIDE_DATA_PIECE : Nat := 16
def SECTION_ID_FRAME_LOG : Nat := 17
def SECTION_ID_FRAME_LOGS : Nat := 18
def SECTION_ID_LIBRARY_VERSION : Nat := 19
def SECTION_ID_LIBRARY_VERSIONS : Nat := 20
def SECTION_ID_PACKET : Nat := 21
def SECTION_ID_PACKET_TAGS : Nat := 22
def SECTION_ID_PACKETS : Nat := 23
def SECTION_ID_PACKETS_AND_FRAMES : Nat := 24
def SECTION_ID_PACKET_SIDE_DATA_LIST : Nat := 25
def SECTION_ID_PACKET_SIDE_DATA : Nat := 26
def SECTION_ID_PIXEL_FORMAT : Nat := 27
def SECTION_ID_PIXEL_FORMAT_FLAGS : Nat := 28
def SECTION_ID_PIXEL_FORMAT_COMPONENT : Nat := 29
def SECTION_ID_PIXEL_FORMAT_COMPONENTS : Nat := 30
def SECTION_ID_PIXEL_FORMATS : Nat := 31
def SECTION_ID_PROGRAM_STREAM_DISPOSITION : Nat := 32
def SECTION_ID_PROGRAM_STREAM_TAGS : Nat := 33
def SECTION_ID_PROGRAM : Nat := 34
def SECTION_ID_PROGRAM_STREAMS : Nat := 35
def SECTION_ID_PROGRAM_STREAM : Nat := 36
def SECTION_ID_PROGRAM_TAGS : Nat := 37
def SECTION_ID_PROGRAM_VERSION : Nat := 38
def SECTION_ID_PROGRAMS : Nat := 39
def SECTION_ID_STREAM_GROUP_STREAM_DISPOSITION : Nat := 40
def SECTION_ID_STREAM_GROUP_STREAM_TAGS : Nat := 41
def SECTION_ID_STREAM_GROUP : Nat := 42
def SECTION_ID_STREAM_GROUP_COMPONENTS : Nat := 43
def SECTION_ID_STREAM_GROUP_COMPONENT : Nat := 44
def SECTION_ID_STREAM_GROUP_SUBCOMPONENTS : Nat := 45
def SECTION_ID_STREAM_GROUP_SUBCOMPONENT : Nat := 46
def SECTION_ID_STREAM_GROUP_PIECES : Nat := 47
def SECTION_ID_STREAM_GROUP_PIECE : Nat := 48
def SECTION_ID_STREAM_GROUP_SUBPIECES : Nat := 49
def SECTION_ID_STREAM_GROUP_SUBPIECE : Nat := 50
def SECTION_ID_STREAM_GROUP_BLOCKS : Nat := 51
def SECTION_ID_STREAM_GROUP_BLOCK : Nat := 52
def SECTION_ID_STREAM_GROUP_STREAMS : Nat := 53
def SECTION_ID_STREAM_GROUP_STREAM : Nat := 54
def SECTION_ID_STREAM_GROUP_DISPOSITION : Nat := 55
def SECTION_ID_STREAM_GROUP_TAGS : Nat := 56
def SECTION_ID_STREAM_GROUPS : Nat := 57
def SECTION_ID_ROOT : Nat := 58
def SECTION_ID_STREAM : Nat := 59
def SECTION_ID_STREAM_DISPOSITION : Nat := 60
def SECTION_ID_STREAMS : Nat := 61
def SECTION_ID_STREAM_TAGS : Nat := 62
def SECTION_ID_STREAM_SIDE_DATA_LIST : Nat := 63
def SECTION_ID_STREAM_SIDE_DATA : Nat := 64
def SECTION_ID_SUBTITLE : Nat := 65

/-- Number of entries of the static `sections[]` array. -/
def NB_SECTIONS : Nat := 66

/-- Out-of-range lookup result (a zeroed `struct section`; indexing outside the
static array is never done by the embedded operations on registered ids). -/
def nullSection : Section := { id := 0, name := "" }

/-- Embedding of the static `sections[]` array of ffprobe.c, in enum order
(designated initializers, every index 0..65 present). -/
def sectionsList : List Section :=
  [ { id := 0, name := "chapter", childrenIds := [1] },
    { id := 1, name := "tags", flags := SECTION_FLAG_HAS_VARIABLE_FIELDS,
      elementName := some "tag", uniqueName := some "chapter_tags" },
    { id := 2, name := "chapters", flags := SECTION_FLAG_IS_ARRAY, childrenIds := [0] },
    { id := 3, name := "error" },
    { id := 4, name := "format", childrenIds := [5] },
    { id := 5, name := "tags", flags := SECTION_FLAG_HAS_VARIABLE_FIELDS,
      elementName := some "tag", uniqueName := some "format_tags" },
    { id := 6, name := "frame", childrenIds := [8, 9, 18] },
    { id := 7, name := "frames", flags := SECTION_FLAG_IS_ARRAY, childrenIds := [6, 65] },
    { id := 8, name := "tags", flags := SECTION_FLAG_HAS_VARIABLE_FIELDS,
      elementName := some "tag", uniqueName := some "frame_tags" },
    { id := 9, name := "side_data_list", flags := SECTION_FLAG_IS_ARRAY, childrenIds := [10],
      elementName := some "side_data", uniqueName := some "frame_side_data_list" },
    { id := 10, name := "side_data",
      flags := SECTION_FLAG_HAS_VARIABLE_FIELDS + SECTION_FLAG_HAS_TYPE,
      childrenIds := [11, 13], uniqueName := some "frame_side_data",
      elementName := some "side_datum", getTypeTag := some get_frame_side_data_type },
    { id := 11, name := "timecodes", flags := SECTION_FLAG_IS_ARRAY, childrenIds := [12] },
    { id := 12, name := "timecode" },
    { id := 13, name := "components", flags := SECTION_FLAG_IS_ARRAY, childrenIds := [14],
      elementName := some "component", uniqueName := some "frame_side_data_components" },
    { id := 14, name := "component",
      flags := SECTION_FLAG_HAS_VARIABLE_FIELDS + SECTION_FLAG_HAS_TYPE,
      childrenIds := [15], uniqueName := some "frame_side_data_component",
      elementName := some "component_entry", getTypeTag := some get_raw_string_type },
    { id := 15, name := "pieces", flags := SECTION_FLAG_IS_ARRAY, childrenIds := [16],
      elementName := some "piece", uniqueName := some "frame_side_data_pieces" },
    { id := 16, name := "piece",
      flags := SECTION_FLAG_HAS_VARIABLE_FIELDS + SECTION_FLAG_HAS_TYPE,
      elementName := some "piece_entry", uniqueName := some "frame_side_data_piece",
      getTypeTag := some get_raw_string_type },
    { id := 17, name := "log" },
    { id := 18, name := "logs", flags := SECTION_FLAG_IS_ARRAY, childrenIds := [17] },
    { id := 19, name := "library_version" },
    { id := 20, name := "library_versions", flags := SECTION_FLAG_IS_ARRAY, childrenIds := [19] },
    { id := 21, name := "packet", childrenIds := [22, 25] },
    { id := 22, name := "tags", flags := SECTION_FLAG_HAS_VARIABLE_FIELDS,
      elementName := some "tag", uniqueName := some "packet_tags" },
    { id := 23, name := "packets", flags := SECTION_FLAG_IS_ARRAY, childrenIds := [21] },
    { id := 24, name := "packets_and_frames", flags := SECTION_FLAG_IS_ARRAY,
      childrenIds := [21] },
    { id := 25, name := "side_data_list", flags := SECTION_FLAG_IS_ARRAY, childrenIds := [26],
      elementName := some "side_data", uniqueName := some "packet_side_data_list" },
    { id := 26, name := "side_data",
      flags := SECTION_FLAG_HAS_VARIABLE_FIELDS + SECTION_FLAG_HAS_TYPE,
      uniqueName := some "packet_side_data", elementName := some "side_datum",
      getTypeTag := some get_packet_side_data_type },
    { id := 27, name := "pixel_format", childrenIds := [28, 30] },
    { id := 28, name := "flags", uniqueName := some "pixel_format_flags" },
    { id := 29, name := "component" },
    { id := 30, name := "components", flags := SECTION_FLAG_IS_ARRAY, childrenIds := [29],
      uniqueName := some "pixel_format_components" },
    { id := 31, name := "pixel_formats", flags := SECTION_FLAG_IS_ARRAY, childrenIds := [27] },
    { id := 32, name := "disposition", uniqueName := some "program_stream_disposition" },
    { id := 33, name := "tags", flags := SECTION_FLAG_HAS_VARIABLE_FIELDS,
      elementName := some "tag", uniqueName := some "program_stream_tags" },
    { id := 34, name := "program", childrenIds := [37, 35] },
    { id := 35, name := "streams", flags := SECTION_FLAG_IS_ARRAY, childrenIds := [36],
      uniqueName := some "program_streams" },
    { id := 36, name := "stream", childrenIds := [32, 33], uniqueName := some "program_stream" },
    { id := 37, name := "tags", flags := SECTION_FLAG_HAS_VARIABLE_FIELDS,
      elementName := some "tag", uniqueName := some "program_tags" },
    { id := 38, name := "program_version" },
    { id := 39, name := "programs", flags := SECTION_FLAG_IS_ARRAY, childrenIds := [34] },
    { id := 40, name := "disposition", uniqueName := some "stream_group_stream_disposition" },
    { id := 41, name := "tags", flags := SECTION_FLAG_HAS_VARIABLE_FIELDS,
      elementName := some "tag", uniqueName := some "stream_group_stream_tags" },
    { id := 42, name := "stream_group", childrenIds := [56, 55, 43, 53] },
    { id := 43, name := "components", flags := SECTION_FLAG_IS_ARRAY, childrenIds := [44],
      elementName := some "component", uniqueName := some "stream_group_components" },
    { id := 44, name := "component",
      flags := SECTION_FLAG_HAS_VARIABLE_FIELDS + SECTION_FLAG_HAS_TYPE,
      childrenIds := [45], uniqueName := some "stream_group_component",
      elementName := some "component_entry", getTypeTag := some get_stream_group_type },
    { id := 45, name := "subcomponents", flags := SECTION_FLAG_IS_ARRAY, childrenIds := [46],
      elementName := some "component" },
    { id := 46, name := "subcomponent",
      flags := SECTION_FLAG_HAS_VARIABLE_FIELDS + SECTION_FLAG_HAS_TYPE,
      childrenIds := [47], elementName := some "subcomponent_entry",
      getTypeTag := some get_raw_string_type },
    { id := 47, name := "pieces", flags := SECTION_FLAG_IS_ARRAY, childrenIds := [48],
      elementName := some "piece", uniqueName := some "stream_group_pieces" },
    { id := 48, name := "piece",
      flags := SECTION_FLAG_HAS_VARIABLE_FIELDS + SECTION_FLAG_HAS_TYPE,
      childrenIds := [49], uniqueName := some "stream_group_piece",
      elementName := some "piece_entry", getTypeTag := some get_raw_string_type },
    { id := 49, name := "subpieces", flags := SECTION_FLAG_IS_ARRAY, childrenIds := [50],
      elementName := some "subpiece" },
    { id := 50, name := "subpiece",
      flags := SECTION_FLAG_HAS_VARIABLE_FIELDS + SECTION_FLAG_HAS_TYPE,
      childrenIds := [51], elementName := some "subpiece_entry",
      getTypeTag := some get_raw_string_type },
    { id := 51, name := "blocks", flags := SECTION_FLAG_IS_ARRAY, childrenIds := [52],
      elementName := some "block" },
    { id := 52, name := "block",
      flags := SECTION_FLAG_HAS_VARIABLE_FIELDS + SECTION_FLAG_HAS_TYPE,
      elementName := some "block_entry", getTypeTag := some get_raw_string_type },
    { id := 53, name := "streams", flags := SECTION_FLAG_IS_ARRAY, childrenIds := [54],
      uniqueName := some "stream_group_streams" },
    { id := 54, name := "stream", childrenIds := [40, 41],
      uniqueName := some "stream_group_stream" },
    { id := 55, name := "disposition", uniqueName := some "stream_group_disposition" },
    { id := 56, name := "tags", flags := SECTION_FLAG_HAS_VARIABLE_FIELDS,
      elementName := some "tag", uniqueName := some "stream_group_tags" },
    { id := 57, name := "stream_groups", flags := SECTION_FLAG_IS_ARRAY, childrenIds := [42] },
    { id := 58, name := "root", flags := SECTION_FLAG_IS_WRAPPER,
      childrenIds := [2, 4, 7, 39, 57, 61, 23, 3, 38, 20, 31] },
    { id := 59, name := "stream", childrenIds := [60, 62, 63] },
    { id := 60, name := "disposition", uniqueName := some "stream_disposition" },
    { id := 61, name := "streams", flags := SECTION_FLAG_IS_ARRAY, childrenIds := [59] },
    { id := 62, name := "tags", flags := SECTION_FLAG_HAS_VARIABLE_FIELDS,
      elementName := some "tag", uniqueName := some "stream_tags" },
    { id := 63, name := "side_data_list", flags := SECTION_FLAG_IS_ARRAY, childrenIds := [64],
      elementName := some "side_data", uniqueName := some "stream_side_data_list" },
    { id := 64, name := "side_data",
      flags := SECTION_FLAG_HAS_TYPE + SECTION_FLAG_HAS_VARIABLE_FIELDS,
      uniqueName := some "stream_side_data", elementName := some "side_datum",
      getTypeTag := some get_packet_side_data_type },
    { id := 65, name := "subtitle" } ]

/-- A section registry: id-indexed lookup (the source's `struct section *`
array together with its mutable filter fields). -/
def Registry : Type := Nat → Section

/-- The ffprobe registry: index into `sectionsList` (array indexing). -/
def sections : Registry := fun i => sectionsList.getD i nullSection

/-- In-place update of one registry entry (the source mutates
`sections[section_id]` through a pointer). -/
def updateReg (reg : Registry) (i : Nat) (f : Section → Section) : Registry :=
  fun j => if j = i then f (reg j) else reg j

/-- Embedding of `mark_section_show_entries`: sets `show_all_entries` on the
section, and either recurses over `children_ids` (when `show_all_entries` is
requested) or copies the entry set into the section's filter dictionary.  The
C recursion runs on the call stack; `fuel` bounds that recursion depth and is
instantiated with `NB_SECTIONS`, which exceeds the depth of every
`children_ids` chain of the acyclic registry. -/
def mark_section_show_entries : Nat → Registry → Nat → Bool → List String → Registry
  | 0, reg, _, _, _ => reg
  | fuel + 1, reg, section_id, show_all_entries, entries =>
    let s := reg section_id
    let reg1 := updateReg reg section_id (fun sec => { sec with showAllEntries := show_all_entries })
    if show_all_entries then
      s.childrenIds.foldl
        (fun r c => mark_section_show_entries fuel r c show_all_entries entries) reg1
    else
      updateReg reg1 section_id
        (fun sec => { sec with entriesToShow := sec.entriesToShow ++ entries })

/-- Fuel-bounded reachability along `children_ids`: `reachesWithin (f+1) reg a b`
holds when `b` is reachable from `a` by a chain of at most `f` child edges.
With fuel `NB_SECTIONS` this is exactly reachability through `children_ids`
in the (acyclic, 66-entry) registry. -/
def reachesWithin : Nat → Registry → Nat → Nat → Bool
  | 0, _, _, _ => false
  | fuel + 1, reg, a, b =>
    (a == b) || (reg a).childrenIds.any (fun c => reachesWithin fuel reg c b)

/-- Flag `WRITER_FLAG_DISPLAY_OPTIONAL_FIELDS` on a `Writer`. -/
def WRITER_FLAG_DISPLAY_OPTIONAL_FIELDS : Nat := 1

/-- Flag `WRITER_FLAG_PUT_PACKETS_AND_FRAMES_IN_SAME_CHAPTER` on a `Writer`. -/
def WRITER_FLAG_PUT_PACKETS_AND_FRAMES_IN_SAME_CHAPTER : Nat := 2

/-- Enum `WRITER_STRING_VALIDATION_FAIL`. -/
def WRITER_STRING_VALIDATION_FAIL : Nat := 0

/-- Enum `WRITER_STRING_VALIDATION_REPLACE` (the option default). -/
def WRITER_STRING_VALIDATION_REPLACE : Nat := 1

/-- Enum `WRITER_STRING_VALIDATION_IGNORE`. -/
def WRITER_STRING_VALIDATION_IGNORE : Nat := 2

/-- Global option value `SHOW_OPTIONAL_FIELDS_AUTO` (-1, the default). -/
def SHOW_OPTIONAL_FIELDS_AUTO : Int := -1

/-- Global option value `SHOW_OPTIONAL_FIELDS_NEVER` (0). -/
def SHOW_OPTIONAL_FIELDS_NEVER : Int := 0

/-- Global option value `SHOW_OPTIONAL_FIELDS_ALWAYS` (1). -/
def SHOW_OPTIONAL_FIELDS_ALWAYS : Int := 1

/-- Flag `PRINT_STRING_OPT` of `writer_print_string`. -/
def PRINT_STRING_OPT : Nat := 1

/-- Flag `PRINT_STRING_VALIDATE` of `writer_print_string`. -/
def PRINT_STRING_VALIDATE : Nat := 2

/-- Error code `AVERROR_INVALIDDATA` (= -MKTAG('I','N','D','A')), the value
returned by `validate_string` on invalid input in fail mode. -/
def AVERROR_INVALIDDATA : Int := -1094995529

/-- Embedding of the mutable `struct WriterContext`: the cursor state of one
output run.  The per-level arrays are id-indexed total maps; `output` is the
byte stream written through writer_w8/writer_put_str/writer_printf. -/
structure WCtx where
  sections : Registry
  level : Int
  nbItem : List Nat
  sectionIds : List Nat
  sectionPbuf : List String
  nbSectionPacket : Nat
  nbSectionFrame : Nat
  nbSectionPacketFrame : Nat
  stringValidation : Nat
  stringValidationReplacement : CStr
  showOptionalFields : Int
  output : CStr

/-- Pointwise update of a per-level array. -/
def updf {α : Type} (f : List α) (i : Nat) (x : α) : List α :=
  f.set i x

/-- Cursor state produced by `writer_open`: level -1, zeroed counters and
stacks, string validation defaulting to replace with the U+FFFD replacement
(option table `writer_options`), and the global `show_optional_fields`
defaulting to auto. -/
def initWCtx (reg : Registry) : WCtx :=
  { sections := reg
    level := -1
    nbItem := List.replicate SECTION_MAX_NB_LEVELS 0
    sectionIds := List.replicate SECTION_MAX_NB_LEVELS 0
    sectionPbuf := List.replicate SECTION_MAX_NB_LEVELS ""
    nbSectionPacket := 0
    nbSectionFrame := 0
    nbSectionPacketFrame := 0
    stringValidation := WRITER_STRING_VALIDATION_REPLACE
    stringValidationReplacement := [0xEF, 0xBF, 0xBD]
    showOptionalFields := SHOW_OPTIONAL_FIELDS_AUTO
    output := [] }

/-- Observable backend interactions of the cursor: the call sites of
`wctx->writer->print_section_header`, `...->print_section_footer`,
`...->print_integer` and `...->print_string`. -/
inductive Event where
  | openHook : Event
  | closeHook : Event
  | printInt : CStr → Int → Event
  | printStr : CStr → CStr → Event
deriving DecidableEq, BEq, Repr

/-- Embedding of `struct Writer`: a table of rendering callbacks over a private
context of type `P` (the source's `priv` blob), with the hook pointers that may
be NULL embedded as `Option`. -/
structure Writer' (P : Type) where
  name : String
  printSectionHeader : Option (WCtx → P → String → WCtx × P) := none
  printSectionFooter : Option (WCtx → P → WCtx × P) := none
  printInteger : WCtx → P → CStr → Int → WCtx × P
  printString : WCtx → P → CStr → CStr → WCtx × P
  flags : Nat := 0

/-- Cursor-plus-private state threaded through a run. -/
structure WState (P : Type) where
  wc : WCtx
  priv : P

/-- Modelled from the spec: `av_utf8_decode` (libavutil, outside this
repository slice) "decodes the input as a sequence of text code points".  One
step of standard UTF-8 validation: returns whether the leading sequence is
valid and how many bytes it occupies (an invalid sequence occupies the single
offending lead byte). -/
def utf8_decode_step : CStr → Bool × Nat
  | [] => (true, 0)
  | b :: rest =>
    if b < 0x80 then (true, 1)
    else if 0xC2 ≤ b ∧ b ≤ 0xDF then
      match rest with
      | b1 :: _ => if 0x80 ≤ b1 ∧ b1 ≤ 0xBF then (true, 2) else (false, 1)
      | [] => (false, 1)
    else if 0xE0 ≤ b ∧ b ≤ 0xEF then
      match rest with
      | b1 :: b2 :: _ =>
        if 0x80 ≤ b1 ∧ b1 ≤ 0xBF ∧ 0x80 ≤ b2 ∧ b2 ≤ 0xBF then (true, 3) else (false, 1)
      | _ => (false, 1)
    else if 0xF0 ≤ b ∧ b ≤ 0xF4 then
      match rest with
      | b1 :: b2 :: b3 :: _ =>
        if 0x80 ≤ b1 ∧ b1 ≤ 0xBF ∧ 0x80 ≤ b2 ∧ b2 ≤ 0xBF ∧ 0x80 ≤ b3 ∧ b3 ≤ 0xBF then
          (true, 4)
        else (false, 1)
      | _ => (false, 1)
    else (false, 1)

/-- Loop body of `validate_string`: walks the source bytes one decoded sequence
at a time, accumulating the destination buffer and the invalid-sequence count;
in fail mode the first invalid sequence aborts with `AVERROR_INVALIDDATA`.
`fuel` is the remaining byte count (each step consumes at least one byte). -/
def validate_string_go (wc : WCtx) : Nat → CStr → CStr → Nat → Int × CStr × Nat
  | _, [], dst, invalid_chars_nb => (0, dst, invalid_chars_nb)
  | 0, _, dst, invalid_chars_nb => (0, dst, invalid_chars_nb)
  | fuel + 1, src, dst, invalid_chars_nb =>
    let (ok, consumed) := utf8_decode_step src
    let chunk := src.take consumed
    let rest := src.drop consumed
    if ok then
      validate_string_go wc fuel rest (dst ++ chunk) invalid_chars_nb
    else if wc.stringValidation = WRITER_STRING_VALIDATION_FAIL then
      (AVERROR_INVALIDDATA, dst, invalid_chars_nb + 1)
    else if wc.stringValidation = WRITER_STRING_VALIDATION_REPLACE then
      validate_string_go wc fuel rest (dst ++ wc.stringValidationReplacement)
        (invalid_chars_nb + 1)
    else if wc.stringValidation = WRITER_STRING_VALIDATION_IGNORE then
      validate_string_go wc fuel rest (dst ++ chunk) (invalid_chars_nb + 1)
    else
      validate_string_go wc fuel rest dst (invalid_chars_nb + 1)

/-- Embedding of `validate_string`: returns the error code, the validated
destination string, and whether the one-line replacement warning was logged
(`invalid_chars_nb` nonzero in replace mode). -/
def validate_string (wc : WCtx) (src : CStr) : Int × CStr × Bool :=
  let (ret, dst, invalid_chars_nb) := validate_string_go wc src.length src [] 0
  (ret, dst, invalid_chars_nb ≠ 0 ∧ wc.stringValidation = WRITER_STRING_VALIDATION_REPLACE)

/-- Modelled from the spec: `av_dict_get` (libavutil, outside this repository
slice) looks a key up in the filter dictionary; the spec phrases the check as
`key ∈ entries_to_show`, and `av_dict_get` without `AV_DICT_MATCH_CASE`
compares keys ASCII-case-insensitively. -/
def av_dict_get (entries : List String) (key : CStr) : Bool :=
  let lower : CStr → CStr := List.map (fun b => if 0x41 ≤ b ∧ b ≤ 0x5A then b + 0x20 else b)
  entries.any (fun e => lower (ascii e) = lower key)

/-- Current section of the cursor: `wctx->section[wctx->level]`. -/
def currentSection (wc : WCtx) : Section :=
  wc.sections (wc.sectionIds.getD wc.level.toNat 0)

/-- Display-filter test shared by `writer_print_integer` and
`writer_print_string`: `section->show_all_entries ||
av_dict_get(section->entries_to_show, key, NULL, 0)`. -/
def entryFilter (sec : Section) (key : CStr) : Bool :=
  sec.showAllEntries || av_dict_get sec.entriesToShow key

/-- Embedding of `writer_print_section_header`: increments the level, asserts
the `SECTION_MAX_NB_LEVELS` bound (`none` embeds the `av_assert0` abort),
records the section on the stack, resets the per-level item count, maintains
the packets-and-frames counters, and invokes the backend's section-open hook
when it is defined. -/
def writer_print_section_header {P : Type} (w : Writer' P) (st : WState P)
    (data : String) (section_id : Nat) : Option (WState P × List Event) :=
  let wc := st.wc
  let level1 : Int := wc.level + 1
  if level1 < (SECTION_MAX_NB_LEVELS : Int) then
    let l : Nat := level1.toNat
    let parent_section_id : Int :=
      if level1 ≠ 0 then ((wc.sections (wc.sectionIds.getD (l - 1) 0)).id : Int) else -1
    let wc := { wc with
      level := level1
      nbItem := updf wc.nbItem l 0
      sectionIds := updf wc.sectionIds l section_id }
    let wc :=
      if section_id = SECTION_ID_PACKETS_AND_FRAMES then
        { wc with nbSectionPacket := 0, nbSectionFrame := 0, nbSectionPacketFrame := 0 }
      else if parent_section_id = (SECTION_ID_PACKETS_AND_FRAMES : Int) then
        { wc with nbSectionPacketFrame :=
            if section_id = SECTION_ID_PACKET then wc.nbSectionPacket else wc.nbSectionFrame }
      else wc
    match w.printSectionHeader with
    | some f =>
      let (wc1, p1) := f wc st.priv data
      some (⟨wc1, p1⟩, [Event.openHook])
    | none => some (⟨wc, st.priv⟩, [])
  else
    none

/-- Embedding of `writer_print_section_footer`: bumps the parent's item count
and the packets-and-frames counters, invokes the backend's section-close hook
when defined, and decrements the level.  Closing with no open section would
read `wctx->section[-1]` in C; that caller-contract violation is embedded as
`none`. -/
def writer_print_section_footer {P : Type} (w : Writer' P) (st : WState P) :
    Option (WState P × List Event) :=
  let wc := st.wc
  if wc.level < 0 then
    none
  else
    let l : Nat := wc.level.toNat
    let section_id := (wc.sections (wc.sectionIds.getD l 0)).id
    let parent_section_id : Int :=
      if wc.level ≠ 0 then ((wc.sections (wc.sectionIds.getD (l - 1) 0)).id : Int) else -1
    let wc :=
      if parent_section_id ≠ -1 then
        { wc with nbItem := updf wc.nbItem (l - 1) (wc.nbItem.getD (l - 1) 0 + 1) }
      else wc
    let wc :=
      if parent_section_id = (SECTION_ID_PACKETS_AND_FRAMES : Int) then
        if section_id = SECTION_ID_PACKET then
          { wc with nbSectionPacket := wc.nbSectionPacket + 1 }
        else
          { wc with nbSectionFrame := wc.nbSectionFrame + 1 }
      else wc
    let (st1, evs) :=
      match w.printSectionFooter with
      | some f =>
        let (wc1, p1) := f wc st.priv
        ((⟨wc1, p1⟩ : WState P), [Event.closeHook])
      | none => (⟨wc, st.priv⟩, [])
    some (⟨{ st1.wc with level := st1.wc.level - 1 }, st1.priv⟩, evs)

/-- Embedding of `writer_print_integer`: filtered by the current section's
display filter; on a hit, forwards to the backend and bumps the per-level item
count; otherwise a silent no-op. -/
def writer_print_integer {P : Type} (w : Writer' P) (st : WState P)
    (key : CStr) (val : Int) : WState P × List Event :=
  let wc := st.wc
  let sec := currentSection wc
  if entryFilter sec key then
    let (wc1, p1) := w.printInteger wc st.priv key val
    let l := wc1.level.toNat
    (⟨{ wc1 with nbItem := updf wc1.nbItem l (wc1.nbItem.getD l 0 + 1) }, p1⟩,
     [Event.printInt key val])
  else
    (st, [])

/-- Embedding of `writer_print_string`: the optional-fields policy gate, then
the section display filter, then (under `PRINT_STRING_VALIDATE`) validation of
key and value — a validation failure skips the backend call but still falls
through to the item-count increment — and finally the backend call.  Returns
the updated state, the backend events, and the C return code. -/
def writer_print_string {P : Type} (w : Writer' P) (st : WState P)
    (key val : CStr) (flags : Nat) : WState P × List Event × Int :=
  let wc := st.wc
  let sec := currentSection wc
  if wc.showOptionalFields = SHOW_OPTIONAL_FIELDS_NEVER ∨
     (wc.showOptionalFields = SHOW_OPTIONAL_FIELDS_AUTO ∧
      flags &&& PRINT_STRING_OPT ≠ 0 ∧
      w.flags &&& WRITER_FLAG_DISPLAY_OPTIONAL_FIELDS = 0) then
    (st, [], 0)
  else if entryFilter sec key then
    let (st1, evs, ret) :=
      if flags &&& PRINT_STRING_VALIDATE ≠ 0 then
        let (retK, key1, _) := validate_string wc key
        if retK < 0 then (st, ([] : List Event), retK)
        else
          let (retV, val1, _) := validate_string wc val
          if retV < 0 then (st, ([] : List Event), retV)
          else
            let (wc1, p1) := w.printString wc st.priv key1 val1
            ((⟨wc1, p1⟩ : WState P), [Event.printStr key1 val1], (0 : Int))
      else
        let (wc1, p1) := w.printString wc st.priv key val
        ((⟨wc1, p1⟩ : WState P), [Event.printStr key val], (0 : Int))
    let l := st1.wc.level.toNat
    (⟨{ st1.wc with nbItem := updf st1.wc.nbItem l (st1.wc.nbItem.getD l 0 + 1) }, st1.priv⟩,
     evs, ret)
  else
    (st, [], 0)

/-- One call of the producer into the writer cursor. -/
inductive Op where
  | openSection : Nat → String → Op
  | closeSection : Op
  | printInteger : CStr → Int → Op
  | printString : CStr → CStr → Nat → Op

/-- One cursor call dispatched to the matching cursor operation.  The return
code of `writer_print_string` is discarded, as at the bulk of its call sites
in the source. -/
def writer_step {P : Type} (w : Writer' P) (st : WState P) :
    Op → Option (WState P × List Event)
  | Op.openSection id data => writer_print_section_header w st data id
  | Op.closeSection => writer_print_section_footer w st
  | Op.printInteger key v => some (writer_print_integer w st key v)
  | Op.printString key val flags =>
    let (st1, evs, _) := writer_print_string w st key val flags
    some (st1, evs)

/-- Driving the cursor through a call sequence, accumulating the backend
events; `none` embeds an `av_assert0` abort (or an out-of-protocol close). -/
def writer_run {P : Type} (w : Writer' P) :
    WState P → List Op → Option (WState P × List Event)
  | st, [] => some (st, [])
  | st, op :: rest =>
    match writer_step w st op with
    | none => none
    | some (st1, evs) =>
      match writer_run w st1 rest with
      | none => none
      | some (st2, evs2) => some (st2, evs ++ evs2)

/-- Embedding of `upcase_string`: ASCII-uppercases into a 32-byte buffer, so at
most 31 characters are kept. -/
def upcase_string (s : String) : String :=
  String.mk ((s.data.take 31).map
    (fun c => if 'a' ≤ c ∧ c ≤ 'z' then Char.ofNat (c.toNat - 32) else c))

/-- Private context `DefaultContext` of the default writer (zeroed by
`av_mallocz`, options `noprint_wrappers` and `nokey` default to 0). -/
structure DefaultContext where
  nokey : Bool := false
  noprintWrappers : Bool := false
  nestedSection : List Bool := List.replicate SECTION_MAX_NB_LEVELS false

/-- Embedding of `default_print_section_header`: clears the per-level prefix
buffer; a child of a non-wrapper, non-array parent becomes a nested section
with a `PARENT_ELEMENTNAME:` key prefix and prints no bracket line; otherwise
a non-wrapper, non-array section prints its `[NAME]` bracket line. -/
def default_print_section_header (wc : WCtx) (defc : DefaultContext) (_data : String) :
    WCtx × DefaultContext :=
  let l := wc.level.toNat
  let sec := wc.sections (wc.sectionIds.getD l 0)
  let parent? : Option Section :=
    if wc.level ≠ 0 then some (wc.sections (wc.sectionIds.getD (l - 1) 0)) else none
  let wc := { wc with sectionPbuf := updf wc.sectionPbuf l "" }
  let (wc, defc) :=
    match parent? with
    | some parent =>
      if parent.flags &&& (SECTION_FLAG_IS_WRAPPER ||| SECTION_FLAG_IS_ARRAY) = 0 then
        let defc := { defc with nestedSection := updf defc.nestedSection l true }
        let pb := wc.sectionPbuf.getD (l - 1) "" ++
          upcase_string (sec.elementName.getD sec.name) ++ ":"
        ({ wc with sectionPbuf := updf wc.sectionPbuf l pb }, defc)
      else (wc, defc)
    | none => (wc, defc)
  if defc.noprintWrappers || defc.nestedSection.getD l false then
    (wc, defc)
  else if sec.flags &&& (SECTION_FLAG_IS_WRAPPER ||| SECTION_FLAG_IS_ARRAY) = 0 then
    ({ wc with output := wc.output ++ ascii ("[" ++ upcase_string sec.name ++ "]\n") }, defc)
  else (wc, defc)

/-- Embedding of `default_print_section_footer`: prints the `[/NAME]` bracket
line for non-wrapper, non-array, non-nested sections. -/
def default_print_section_footer (wc : WCtx) (defc : DefaultContext) :
    WCtx × DefaultContext :=
  let l := wc.level.toNat
  let sec := wc.sections (wc.sectionIds.getD l 0)
  if defc.noprintWrappers || defc.nestedSection.getD l false then
    (wc, defc)
  else if sec.flags &&& (SECTION_FLAG_IS_WRAPPER ||| SECTION_FLAG_IS_ARRAY) = 0 then
    ({ wc with output := wc.output ++ ascii ("[/" ++ upcase_string sec.name ++ "]\n") }, defc)
  else (wc, defc)

/-- Embedding of `default_print_str`: `PREFIXKEY=` unless `nokey`, then the
value and a newline. -/
def default_print_str (wc : WCtx) (defc : DefaultContext) (key val : CStr) :
    WCtx × DefaultContext :=
  let l := wc.level.toNat
  let keyPart : CStr :=
    if ¬defc.nokey then ascii (wc.sectionPbuf.getD l "") ++ key ++ ascii "=" else []
  ({ wc with output := wc.output ++ keyPart ++ val ++ [10] }, defc)

/-- Embedding of `default_print_int`. -/
def default_print_int (wc : WCtx) (defc : DefaultContext) (key : CStr) (val : Int) :
    WCtx × DefaultContext :=
  let l := wc.level.toNat
  let keyPart : CStr :=
    if ¬defc.nokey then ascii (wc.sectionPbuf.getD l "") ++ key ++ ascii "=" else []
  ({ wc with output := wc.output ++ keyPart ++ ascii (toString val) ++ [10] }, defc)

/-- Embedding of the `default_writer` table. -/
def default_writer : Writer' DefaultContext :=
  { name := "default"
    printSectionHeader := some default_print_section_header
    printSectionFooter := some default_print_section_footer
    printInteger := default_print_int
    printString := default_print_str
    flags := WRITER_FLAG_DISPLAY_OPTIONAL_FIELDS }

/-- Embedding of `c_escape_str`: C-language-like escaping of control
characters, backslash and the separator byte. -/
def c_escape_str (src : CStr) (sep : Nat) : CStr :=
  src.flatMap (fun b =>
    if b = 8 then [92, 98]
    else if b = 12 then [92, 102]
    else if b = 10 then [92, 110]
    else if b = 13 then [92, 114]
    else if b = 92 then [92, 92]
    else if b = sep then [92, b]
    else [b])

/-- Embedding of `csv_escape_str`: RFC4180 quoting — wrap in double quotes when
a separator, quote, CR or LF occurs, doubling embedded quotes. -/
def csv_escape_str (src : CStr) (sep : Nat) : CStr :=
  let needs_quoting := src.any (fun b => b = sep || b = 34 || b = 10 || b = 13)
  let body := src.flatMap (fun b => if b = 34 then [34, 34] else [b])
  if needs_quoting then [34] ++ body ++ [34] else body

/-- Embedding of `none_escape_str`. -/
def none_escape_str (src : CStr) (_sep : Nat) : CStr := src

/-- Private context `CompactContext` of the compact and csv writers (after
option parsing by `compact_init`). -/
structure CompactContext where
  itemSep : Nat
  nokey : Bool
  printSection : Bool
  escapeStr : CStr → Nat → CStr
  nestedSection : List Bool := List.replicate SECTION_MAX_NB_LEVELS false
  hasNestedElems : List Bool := List.replicate SECTION_MAX_NB_LEVELS false
  terminateLine : List Bool := List.replicate SECTION_MAX_NB_LEVELS false

/-- Option set of the compact/csv writers (`compact_options` / `csv_options`):
same option names and offsets, different defaults. -/
structure CompactOpts where
  itemSepStr : String
  nokey : Bool
  escapeModeStr : String
  printSection : Bool

/-- Defaults of `compact_options`: separator `|`, keys printed, C escaping,
section names printed. -/
def compact_options : CompactOpts :=
  { itemSepStr := "|", nokey := false, escapeModeStr := "c", printSection := true }

/-- Defaults of `csv_options`: separator `,`, no keys, csv escaping, section
names printed. -/
def csv_options : CompactOpts :=
  { itemSepStr := ",", nokey := true, escapeModeStr := "csv", printSection := true }

/-- Embedding of `compact_init`: validates the single-character separator and
resolves the escape mode name to an escape function (`none` embeds the
`AVERROR(EINVAL)` configuration failure). -/
def compact_init (opts : CompactOpts) : Option CompactContext :=
  if (ascii opts.itemSepStr).length ≠ 1 then none
  else
    let item_sep := (ascii opts.itemSepStr).headD 0
    if opts.escapeModeStr = "none" then
      some { itemSep := item_sep, nokey := opts.nokey, printSection := opts.printSection,
             escapeStr := none_escape_str }
    else if opts.escapeModeStr = "c" then
      some { itemSep := item_sep, nokey := opts.nokey, printSection := opts.printSection,
             escapeStr := c_escape_str }
    else if opts.escapeModeStr = "csv" then
      some { itemSep := item_sep, nokey := opts.nokey, printSection := opts.printSection,
             escapeStr := csv_escape_str }
    else none

/-- Normalization of a section type tag in `compact_print_section_header`:
lowercase alphanumerics kept, everything else replaced by an underscore. -/
def compactNormalizeType (s : String) : String :=
  String.mk (s.data.map (fun c =>
    if ('0' ≤ c ∧ c ≤ '9') ∨ ('a' ≤ c ∧ c ≤ 'z') ∨ ('A' ≤ c ∧ c ≤ 'Z') then
      (if 'A' ≤ c ∧ c ≤ 'Z' then Char.ofNat (c.toNat + 32) else c)
    else '_'))

/-- Embedding of `compact_print_section_header`: nested elements (typed array
elements, or children of a non-wrapper/non-array parent) get a
`name[/normalized_type]:` key prefix and inherit the parent's item count;
other sections emit a separator when needed and optionally their name. -/
def compact_print_section_header (wc : WCtx) (cpt : CompactContext) (data : String) :
    WCtx × CompactContext :=
  let l := wc.level.toNat
  let sec := wc.sections (wc.sectionIds.getD l 0)
  let parent? : Option Section :=
    if wc.level ≠ 0 then some (wc.sections (wc.sectionIds.getD (l - 1) 0)) else none
  let cpt := { cpt with
    terminateLine := updf cpt.terminateLine l true
    hasNestedElems := updf cpt.hasNestedElems l false }
  let wc := { wc with sectionPbuf := updf wc.sectionPbuf l "" }
  match parent? with
  | some parent =>
    if sec.flags &&& SECTION_FLAG_HAS_TYPE ≠ 0 ∨
       (sec.flags &&& SECTION_FLAG_IS_ARRAY = 0 ∧
        parent.flags &&& (SECTION_FLAG_IS_WRAPPER ||| SECTION_FLAG_IS_ARRAY) = 0) then
      let element_name := sec.elementName.getD sec.name
      let cpt := { cpt with
        nestedSection := updf cpt.nestedSection l true
        hasNestedElems := updf cpt.hasNestedElems (l - 1) true }
      let pb0 := wc.sectionPbuf.getD (l - 1) "" ++ element_name
      let pb1 :=
        if sec.flags &&& SECTION_FLAG_HAS_TYPE ≠ 0 then
          pb0 ++ "/" ++ compactNormalizeType ((sec.getTypeTag.getD id) data)
        else pb0
      let wc := { wc with
        sectionPbuf := updf wc.sectionPbuf l (pb1 ++ ":")
        nbItem := updf wc.nbItem l (wc.nbItem.getD (l - 1) 0) }
      (wc, cpt)
    else
      let wc :=
        if parent.flags &&& (SECTION_FLAG_IS_WRAPPER ||| SECTION_FLAG_IS_ARRAY) = 0 ∧
           wc.level ≠ 0 ∧ wc.nbItem.getD (l - 1) 0 ≠ 0 then
          { wc with output := wc.output ++ [cpt.itemSep] }
        else wc
      let wc :=
        if cpt.printSection ∧
           sec.flags &&& (SECTION_FLAG_IS_WRAPPER ||| SECTION_FLAG_IS_ARRAY) = 0 then
          { wc with output := wc.output ++ ascii sec.name ++ [cpt.itemSep] }
        else wc
      (wc, cpt)
  | none =>
    let wc :=
      if cpt.printSection ∧
         sec.flags &&& (SECTION_FLAG_IS_WRAPPER ||| SECTION_FLAG_IS_ARRAY) = 0 then
        { wc with output := wc.output ++ ascii sec.name ++ [cpt.itemSep] }
      else wc
    (wc, cpt)

/-- Embedding of `compact_print_section_footer`: a newline terminates the line
of a non-nested, non-wrapper, non-array section. -/
def compact_print_section_footer (wc : WCtx) (cpt : CompactContext) :
    WCtx × CompactContext :=
  let l := wc.level.toNat
  if ¬cpt.nestedSection.getD l false ∧ cpt.terminateLine.getD l false ∧
     (wc.sections (wc.sectionIds.getD l 0)).flags &&&
       (SECTION_FLAG_IS_WRAPPER ||| SECTION_FLAG_IS_ARRAY) = 0 then
    ({ wc with output := wc.output ++ [10] }, cpt)
  else (wc, cpt)

/-- Embedding of `compact_print_str`: separator when the level already emitted
an item, `PREFIXKEY=` unless `nokey`, then the escaped value. -/
def compact_print_str (wc : WCtx) (cpt : CompactContext) (key val : CStr) :
    WCtx × CompactContext :=
  let l := wc.level.toNat
  let sepPart : CStr := if wc.nbItem.getD l 0 ≠ 0 then [cpt.itemSep] else []
  let keyPart : CStr :=
    if ¬cpt.nokey then ascii (wc.sectionPbuf.getD l "") ++ key ++ ascii "=" else []
  ({ wc with output := wc.output ++ sepPart ++ keyPart ++ cpt.escapeStr val cpt.itemSep },
   cpt)

/-- Embedding of `compact_print_int`. -/
def compact_print_int (wc : WCtx) (cpt : CompactContext) (key : CStr) (val : Int) :
    WCtx × CompactContext :=
  let l := wc.level.toNat
  let sepPart : CStr := if wc.nbItem.getD l 0 ≠ 0 then [cpt.itemSep] else []
  let keyPart : CStr :=
    if ¬cpt.nokey then ascii (wc.sectionPbuf.getD l "") ++ key ++ ascii "=" else []
  ({ wc with output := wc.output ++ sepPart ++ keyPart ++ ascii (toString val) }, cpt)

/-- Embedding of the `compact_writer` table. -/
def compact_writer : Writer' CompactContext :=
  { name := "compact"
    printSectionHeader := some compact_print_section_header
    printSectionFooter := some compact_print_section_footer
    printInteger := compact_print_int
    printString := compact_print_str
    flags := WRITER_FLAG_DISPLAY_OPTIONAL_FIELDS }

/-- Embedding of the `csv_writer` table: the same five callbacks as
`compact_writer`, only the name and the option defaults (`csv_options`)
differ. -/
def csv_writer : Writer' CompactContext :=
  { name := "csv"
    printSectionHeader := some compact_print_section_header
    printSectionFooter := some compact_print_section_footer
    printInteger := compact_print_int
    printString := compact_print_str
    flags := WRITER_FLAG_DISPLAY_OPTIONAL_FIELDS }

/-- Private context `FlatContext` of the flat writer, after `flat_init`. -/
structure FlatContext where
  sep : Nat
  sepStr : String
  hierarchical : Bool

/-- Defaults of `flat_options`: separator `.`, hierarchical paths on. -/
def flatCtx0 : FlatContext := { sep := 46, sepStr := ".", hierarchical := true }

/-- Embedding of `flat_init`: validates the single-character separator. -/
def flat_init (sepStr : String) (hierarchical : Bool) : Option FlatContext :=
  if (ascii sepStr).length ≠ 1 then none
  else some { sep := (ascii sepStr).headD 0, sepStr := sepStr, hierarchical := hierarchical }

/-- Embedding of `flat_escape_key_str`: every non-alphanumeric byte of a key
becomes an underscore. -/
def flat_escape_key_str (src : CStr) : CStr :=
  src.map (fun b =>
    if (48 ≤ b ∧ b ≤ 57) ∨ (97 ≤ b ∧ b ≤ 122) ∨ (65 ≤ b ∧ b ≤ 90) then b else 95)

/-- Embedding of `flat_escape_value_str`: backslash-escapes LF, CR, backslash,
double quote, backquote and dollar. -/
def flat_escape_value_str (src : CStr) : CStr :=
  src.flatMap (fun b =>
    if b = 10 then [92, 110]
    else if b = 13 then [92, 114]
    else if b = 92 then [92, 92]
    else if b = 34 then [92, 34]
    else if b = 96 then [92, 96]
    else if b = 36 then [92, 36]
    else [b])

/-- Embedding of `flat_print_section_header`: accumulates the dotted key path
in the per-level prefix buffer, inserting the element index when the parent is
an array (the shared packets-and-frames counter for that section). -/
def flat_print_section_header (wc : WCtx) (fl : FlatContext) (_data : String) :
    WCtx × FlatContext :=
  let l := wc.level.toNat
  let sec := wc.sections (wc.sectionIds.getD l 0)
  let parent? : Option Section :=
    if wc.level ≠ 0 then some (wc.sections (wc.sectionIds.getD (l - 1) 0)) else none
  match parent? with
  | none => ({ wc with sectionPbuf := updf wc.sectionPbuf l "" }, fl)
  | some parent =>
    let base := wc.sectionPbuf.getD (l - 1) ""
    if fl.hierarchical ∨
       sec.flags &&& (SECTION_FLAG_IS_ARRAY ||| SECTION_FLAG_IS_WRAPPER) = 0 then
      let b1 := base ++ sec.name ++ fl.sepStr
      let b2 :=
        if parent.flags &&& SECTION_FLAG_IS_ARRAY ≠ 0 then
          let n :=
            if parent.id = SECTION_ID_PACKETS_AND_FRAMES then wc.nbSectionPacketFrame
            else wc.nbItem.getD (l - 1) 0
          b1 ++ toString n ++ fl.sepStr
        else b1
      ({ wc with sectionPbuf := updf wc.sectionPbuf l b2 }, fl)
    else
      ({ wc with sectionPbuf := updf wc.sectionPbuf l base }, fl)

/-- Embedding of `flat_print_int`: `path.key=value` with a newline, the key
printed raw. -/
def flat_print_int (wc : WCtx) (fl : FlatContext) (key : CStr) (val : Int) :
    WCtx × FlatContext :=
  let l := wc.level.toNat
  let line : CStr :=
    ascii (wc.sectionPbuf.getD l "") ++ key ++ ascii "=" ++ ascii (toString val) ++ [10]
  ({ wc with output := wc.output ++ line }, fl)

/-- Embedding of `flat_print_str`: `path.escaped_key="escaped_value"` with a
newline. -/
def flat_print_str (wc : WCtx) (fl : FlatContext) (key val : CStr) :
    WCtx × FlatContext :=
  let l := wc.level.toNat
  let line : CStr :=
    ascii (wc.sectionPbuf.getD l "") ++ flat_escape_key_str key ++ ascii "=" ++ [34] ++
      flat_escape_value_str val ++ [34, 10]
  ({ wc with output := wc.output ++ line }, fl)

/-- Embedding of the `flat_writer` table: note the absence of a
`print_section_footer` callback. -/
def flat_writer : Writer' FlatContext :=
  { name := "flat"
    printSectionHeader := some flat_print_section_header
    printSectionFooter := none
    printInteger := flat_print_int
    printString := flat_print_str
    flags := WRITER_FLAG_DISPLAY_OPTIONAL_FIELDS +
      WRITER_FLAG_PUT_PACKETS_AND_FRAMES_IN_SAME_CHAPTER }

/-- Number of `openSection` calls in a sequence. -/
def nOpens (ops : List Op) : Nat :=
  ops.countP (fun op => match op with | Op.openSection _ _ => true | _ => false)

/-- Number of `closeSection` calls in a sequence. -/
def nCloses (ops : List Op) : Nat :=
  ops.countP (fun op => match op with | Op.closeSection => true | _ => false)

/-- Number of section-open hook invocations in an event trace. -/
def hookOpens (evs : List Event) : Nat :=
  evs.countP (fun e => match e with | Event.openHook => true | _ => false)

/-- Number of section-close hook invocations in an event trace. -/
def hookCloses (evs : List Event) : Nat :=
  evs.countP (fun e => match e with | Event.closeHook => true | _ => false)

/-- Field-emission events (the backend `print_integer`/`print_string` calls) of
an event trace, in order. -/
def printEvents (evs : List Event) : List Event :=
  evs.filter (fun e => match e with
    | Event.printInt _ _ => true | Event.printStr _ _ => true | _ => false)

theorem updf_getD_self {α : Type} (l : List α) (i : Nat) (x d : α) (h : i < l.length) :
    (updf l i x).getD i d = x := by
  simp [updf, List.getD_eq_getElem?_getD, List.getElem?_set_self', List.getElem?_eq_getElem h]

theorem updf_getD_ne {α : Type} (l : List α) (i j : Nat) (x d : α) (h : j ≠ i) :
    (updf l i x).getD j d = l.getD j d := by
  simp [updf, List.getD_eq_getElem?_getD, List.getElem?_set_ne (Ne.symm h)]

/-- Registry with the Format section switched to show-all (the state ffprobe
reaches for `-show_format`-style runs, where the section filters are
configured before the first open). -/
def fmtShownReg : Registry :=
  updateReg sections SECTION_ID_FORMAT (fun sec => { sec with showAllEntries := true })

/-- Cursor positioned inside the Format section (Root at level 0, Format at
level 1) over `fmtShownReg`. -/
def fmtWC : WCtx :=
  { initWCtx fmtShownReg with
      level := 1
      sectionIds := updf (updf (initWCtx fmtShownReg).sectionIds 0 SECTION_ID_ROOT) 1
        SECTION_ID_FORMAT }

/-- Claim C1 (amended): `writer_print_section_header` performs no
`children_ids` legality check at all — opening any registered section id,
legal child of the current section or not, succeeds without error whenever
fewer than `SECTION_MAX_NB_LEVELS` sections are open; the depth assertion
`av_assert0(wctx->level < SECTION_MAX_NB_LEVELS)` is the only fail-fast check
in the open path. -/
theorem claim1_depth_only_assert {P : Type} (w : Writer' P) (st : WState P)
    (data : String) (section_id : Nat)
    (h : st.wc.level + 1 < (SECTION_MAX_NB_LEVELS : Int)) :
    (writer_print_section_header w st data section_id).isSome = true := by
  rw [writer_print_section_header]
  simp only [if_pos h]
  rcases hw : w.printSectionHeader with _ | f <;> simp [hw]

/-- Witness for C1: with only Root open, opening Packet — an id absent from
Root's `children_ids` — raises no error. -/
theorem claim1_witness :
    ({ initWCtx sections with level := 0 } : WCtx).level + 1 <
      (SECTION_MAX_NB_LEVELS : Int) ∧
    (writer_print_section_header default_writer
      ⟨{ initWCtx sections with level := 0 }, {}⟩ "" SECTION_ID_PACKET).isSome = true := by
  constructor
  · decide
  · exact claim1_depth_only_assert default_writer _ "" SECTION_ID_PACKET (by decide)

/-- Counterexample for C1 as stated: `SECTION_ID_PACKET` is not among Root's
`children_ids`, yet the sequence open Root, open Packet runs without any
error or assertion failure — no caller-contract-violation error is raised for
an illegal child id. -/
theorem claim1_counterexample :
    ((sections SECTION_ID_ROOT).childrenIds.contains SECTION_ID_PACKET) = false ∧
    (writer_run default_writer ⟨initWCtx sections, {}⟩
      [Op.openSection SECTION_ID_ROOT "", Op.openSection SECTION_ID_PACKET ""]).isSome
      = true := by
  exact ⟨by decide, by decide⟩

/-- Claim C3 (amended): the optional-fields policy gate of
`writer_print_string`.  Under `Never`, every string emission — with or without
the `OPTIONAL` flag — is suppressed before the filter and the backend are
consulted.  Under `Auto`, an `OPTIONAL` emission is suppressed exactly when
the backend lacks `WRITER_FLAG_DISPLAY_OPTIONAL_FIELDS`.  Under `Always`, and
under `Auto` for calls without the `OPTIONAL` flag (or with a supporting
backend), a filter-passing emission reaches the backend. -/
theorem claim3_policy_gate {P : Type} (w : Writer' P) (st : WState P)
    (key val : CStr) (flags : Nat) :
    (st.wc.showOptionalFields = SHOW_OPTIONAL_FIELDS_NEVER →
      writer_print_string w st key val flags = (st, [], 0)) ∧
    (st.wc.showOptionalFields = SHOW_OPTIONAL_FIELDS_AUTO →
      flags &&& PRINT_STRING_OPT ≠ 0 →
      w.flags &&& WRITER_FLAG_DISPLAY_OPTIONAL_FIELDS = 0 →
      writer_print_string w st key val flags = (st, [], 0)) ∧
    ((st.wc.showOptionalFields = SHOW_OPTIONAL_FIELDS_ALWAYS ∨
      (st.wc.showOptionalFields = SHOW_OPTIONAL_FIELDS_AUTO ∧
        (flags &&& PRINT_STRING_OPT = 0 ∨
         w.flags &&& WRITER_FLAG_DISPLAY_OPTIONAL_FIELDS ≠ 0))) →
      flags &&& PRINT_STRING_VALIDATE = 0 →
      entryFilter (currentSection st.wc) key = true →
      (writer_print_string w st key val flags).2.1 = [Event.printStr key val]) := by
  refine ⟨fun h => ?_, fun h1 h2 h3 => ?_, fun hpre hv hf => ?_⟩
  · rw [writer_print_string]
    rw [if_pos (Or.inl h)]
  · rw [writer_print_string]
    rw [if_pos (Or.inr ⟨h1, h2, h3⟩)]
  · rw [writer_print_string]
    rw [if_neg ?hgate]
    case hgate =>
      intro hgate
      rcases hgate with h0 | ⟨hauto, hopt, hflags⟩
      · rcases hpre with h | ⟨h, _⟩ <;> rw [h] at h0 <;> exact absurd h0 (by decide)
      · rcases hpre with h | ⟨_, h'⟩
        · rw [h] at hauto; exact absurd hauto (by decide)
        · rcases h' with h' | h'
          · exact hopt h'
          · exact h' hflags
    rw [if_pos hf, if_neg (by simp [hv])]

/-- Witness for C3: with the default backend in the shown Format section under
the `Always` policy, a non-optional, non-validated emission reaches the
backend. -/
theorem claim3_witness :
    (({ fmtWC with showOptionalFields := SHOW_OPTIONAL_FIELDS_ALWAYS } : WCtx).showOptionalFields
        = SHOW_OPTIONAL_FIELDS_ALWAYS ∨
      (({ fmtWC with showOptionalFields := SHOW_OPTIONAL_FIELDS_ALWAYS } : WCtx).showOptionalFields
        = SHOW_OPTIONAL_FIELDS_AUTO ∧
        ((0 : Nat) &&& PRINT_STRING_OPT = 0 ∨
         default_writer.flags &&& WRITER_FLAG_DISPLAY_OPTIONAL_FIELDS ≠ 0))) ∧
    ((0 : Nat) &&& PRINT_STRING_VALIDATE = 0) ∧
    entryFilter
      (currentSection { fmtWC with showOptionalFields := SHOW_OPTIONAL_FIELDS_ALWAYS })
      (ascii "format_name") = true ∧
    (writer_print_string default_writer
      (⟨{ fmtWC with showOptionalFields := SHOW_OPTIONAL_FIELDS_ALWAYS }, {}⟩ :
        WState DefaultContext)
      (ascii "format_name") (ascii "mp4") 0).2.1 =
      [Event.printStr (ascii "format_name") (ascii "mp4")] := by
  refine ⟨Or.inl (by decide), by decide, by decide, ?_⟩
  exact (claim3_policy_gate default_writer _ (ascii "format_name") (ascii "mp4") 0).2.2
    (Or.inl (by decide)) (by decide) (by decide)

/-- Counterexample for C3 as stated: under the `Never` policy a string
emission without the `OPTIONAL` flag, in a section whose filter passes, is
nevertheless suppressed — no backend event is produced — contradicting
"emitted regardless of the configured policy". -/
theorem claim3_counterexample :
    entryFilter
      (currentSection { fmtWC with showOptionalFields := SHOW_OPTIONAL_FIELDS_NEVER })
      (ascii "format_name") = true ∧
    (writer_print_string default_writer
      (⟨{ fmtWC with showOptionalFields := SHOW_OPTIONAL_FIELDS_NEVER }, {}⟩ :
        WState DefaultContext)
      (ascii "format_name") (ascii "mp4") 0).2.1 = [] := by
  exact ⟨by decide, by decide⟩

/-- Claim C10: when a validated string emission fails validation (invalid
UTF-8 in the key, or in the value after a valid key), nothing is forwarded to
the backend — no print event, the output and the private context unchanged —
the call returns the negative error code, and yet the per-level emitted-item
counter is incremented exactly as for a successful emission. -/
theorem claim10_failed_validation {P : Type} (w : Writer' P) (st : WState P)
    (key val : CStr)
    (hsof : st.wc.showOptionalFields = SHOW_OPTIONAL_FIELDS_AUTO)
    (hfil : entryFilter (currentSection st.wc) key = true)
    (hlen : st.wc.level.toNat < st.wc.nbItem.length)
    (hval : (validate_string st.wc key).1 < 0 ∨
      ((validate_string st.wc key).1 = 0 ∧ (validate_string st.wc val).1 < 0)) :
    (writer_print_string w st key val PRINT_STRING_VALIDATE).2.2 < 0 ∧
    (writer_print_string w st key val PRINT_STRING_VALIDATE).2.1 = [] ∧
    (writer_print_string w st key val PRINT_STRING_VALIDATE).1.wc.nbItem.getD
        st.wc.level.toNat 0 =
      st.wc.nbItem.getD st.wc.level.toNat 0 + 1 ∧
    (writer_print_string w st key val PRINT_STRING_VALIDATE).1.wc.output = st.wc.output ∧
    (writer_print_string w st key val PRINT_STRING_VALIDATE).1.priv = st.priv := by
  rcases hK : validate_string st.wc key with ⟨retK, key1, warnK⟩
  rcases hV : validate_string st.wc val with ⟨retV, val1, warnV⟩
  rw [hK, hV] at hval
  simp only at hval
  rw [writer_print_string]
  rw [if_neg ?hgate]
  case hgate =>
    intro hgate
    rcases hgate with h0 | ⟨_, hopt, _⟩
    · rw [hsof] at h0; exact absurd h0 (by decide)
    · exact hopt (by decide)
  rw [if_pos hfil]
  rw [if_pos (by decide : PRINT_STRING_VALIDATE &&& PRINT_STRING_VALIDATE ≠ 0)]
  rw [hK, hV]
  dsimp only
  rcases hval with hk | ⟨hk, hv⟩
  · rw [if_pos hk]
    exact ⟨hk, rfl, updf_getD_self _ _ _ _ hlen, rfl, rfl⟩
  · rw [if_neg (by rw [hk]; decide), if_pos hv]
    exact ⟨hv, rfl, updf_getD_self _ _ _ _ hlen, rfl, rfl⟩

/-- Witness for C10: in the shown Format section under fail-mode validation,
emitting the invalid-UTF-8 value `"bad\xFF byte"` returns an error, produces
no backend event, and still bumps the level-1 item counter from 0 to 1. -/
theorem claim10_witness :
    ({ fmtWC with stringValidation := WRITER_STRING_VALIDATION_FAIL } : WCtx).showOptionalFields
      = SHOW_OPTIONAL_FIELDS_AUTO ∧
    entryFilter
      (currentSection { fmtWC with stringValidation := WRITER_STRING_VALIDATION_FAIL })
      (ascii "title") = true ∧
    (validate_string { fmtWC with stringValidation := WRITER_STRING_VALIDATION_FAIL }
      [0x62, 0x61, 0x64, 0xFF, 0x20, 0x62, 0x79, 0x74, 0x65]).1 < 0 ∧
    (writer_print_string default_writer
      (⟨{ fmtWC with stringValidation := WRITER_STRING_VALIDATION_FAIL }, {}⟩ :
        WState DefaultContext)
      (ascii "title") [0x62, 0x61, 0x64, 0xFF, 0x20, 0x62, 0x79, 0x74, 0x65]
      PRINT_STRING_VALIDATE).2.2 < 0 ∧
    (writer_print_string default_writer
      (⟨{ fmtWC with stringValidation := WRITER_STRING_VALIDATION_FAIL }, {}⟩ :
        WState DefaultContext)
      (ascii "title") [0x62, 0x61, 0x64, 0xFF, 0x20, 0x62, 0x79, 0x74, 0x65]
      PRINT_STRING_VALIDATE).1.wc.nbItem.getD 1 0 = 1 := by
  refine ⟨by decide, by decide, by decide, ?_, ?_⟩
  · exact (claim10_failed_validation default_writer _ (ascii "title") _
      (by decide) (by decide) (by decide) (Or.inr ⟨by decide, by decide⟩)).1
  · exact (claim10_failed_validation default_writer _ (ascii "title") _
      (by decide) (by decide) (by decide) (Or.inr ⟨by decide, by decide⟩)).2.2.1

/-- A backend whose section-open hook leaves the cursor's `level` alone (every
backend in the source: hooks write output, prefix buffers and private state,
never `wctx->level`). -/
def headerKeepsLevel {P : Type} (w : Writer' P) : Prop :=
  ∀ f, w.printSectionHeader = some f → ∀ wc p d, (f wc p d).1.level = wc.level

/-- Section-close hook leaves `level` alone. -/
def footerKeepsLevel {P : Type} (w : Writer' P) : Prop :=
  ∀ f, w.printSectionFooter = some f → ∀ wc p, (f wc p).1.level = wc.level

/-- `print_integer` callback leaves `level` alone. -/
def printIntKeepsLevel {P : Type} (w : Writer' P) : Prop :=
  ∀ wc p k v, (w.printInteger wc p k v).1.level = wc.level

/-- `print_string` callback leaves `level` alone. -/
def printStrKeepsLevel {P : Type} (w : Writer' P) : Prop :=
  ∀ wc p k v, (w.printString wc p k v).1.level = wc.level

theorem header_wc_level (wc : WCtx) (section_id : Nat) :
    (let level1 : Int := wc.level + 1
     let l : Nat := level1.toNat
     let parent_section_id : Int :=
       if level1 ≠ 0 then ((wc.sections (wc.sectionIds.getD (l - 1) 0)).id : Int) else -1
     let wc1 := { wc with
       level := level1
       nbItem := updf wc.nbItem l 0
       sectionIds := updf wc.sectionIds l section_id }
     let wc2 :=
       if section_id = SECTION_ID_PACKETS_AND_FRAMES then
         { wc1 with nbSectionPacket := 0, nbSectionFrame := 0, nbSectionPacketFrame := 0 }
       else if parent_section_id = (SECTION_ID_PACKETS_AND_FRAMES : Int) then
         { wc1 with nbSectionPacketFrame :=
             if section_id = SECTION_ID_PACKET then wc1.nbSectionPacket
             else wc1.nbSectionFrame }
       else wc1
     wc2).level = wc.level + 1 := by
  dsimp only
  repeat' split
  all_goals rfl

theorem header_step_level {P : Type} {w : Writer' P} (hh : headerKeepsLevel w)
    {st : WState P} {data : String} {section_id : Nat} {st1 : WState P} {evs : List Event}
    (h : writer_print_section_header w st data section_id = some (st1, evs)) :
    st1.wc.level = st.wc.level + 1 ∧
    hookOpens evs = (if w.printSectionHeader.isSome then 1 else 0) ∧
    hookCloses evs = 0 := by
  rw [writer_print_section_header] at h
  split at h
  · rcases hw : w.printSectionHeader with _ | f <;> rw [hw] at h
    · obtain ⟨h1, h2⟩ := Prod.mk.injEq .. ▸ Option.some.injEq .. ▸ h
      subst h2
      refine ⟨?_, by simp [hw, hookOpens], by simp [hookCloses]⟩
      rw [← h1]
      exact header_wc_level st.wc section_id
    · obtain ⟨h1, h2⟩ := Prod.mk.injEq .. ▸ Option.some.injEq .. ▸ h
      subst h2
      refine ⟨?_, by simp [hw, hookOpens], by simp [hookCloses]⟩
      rw [← h1]
      dsimp only
      rw [hh f hw]
      exact header_wc_level st.wc section_id
  · exact absurd h (by simp)

theorem footer_wc_level (wc : WCtx) :
    (let l : Nat := wc.level.toNat
     let section_id := (wc.sections (wc.sectionIds.getD l 0)).id
     let parent_section_id : Int :=
       if wc.level ≠ 0 then ((wc.sections (wc.sectionIds.getD (l - 1) 0)).id : Int) else -1
     let wc1 :=
       if parent_section_id ≠ -1 then
         { wc with nbItem := updf wc.nbItem (l - 1) (wc.nbItem.getD (l - 1) 0 + 1) }
       else wc
     let wc2 :=
       if parent_section_id = (SECTION_ID_PACKETS_AND_FRAMES : Int) then
         if section_id = SECTION_ID_PACKET then
           { wc1 with nbSectionPacket := wc1.nbSectionPacket + 1 }
         else
           { wc1 with nbSectionFrame := wc1.nbSectionFrame + 1 }
       else wc1
     wc2).level = wc.level := by
  dsimp only
  repeat' split
  all_goals rfl

theorem footer_step_level {P : Type} {w : Writer' P} (hf : footerKeepsLevel w)
    {st : WState P} {st1 : WState P} {evs : List Event}
    (h : writer_print_section_footer w st = some (st1, evs)) :
    st1.wc.level = st.wc.level - 1 ∧
    hookOpens evs = 0 ∧
    hookCloses evs = (if w.printSectionFooter.isSome then 1 else 0) := by
  rw [writer_print_section_footer] at h
  split at h
  · exact absurd h (by simp)
  · rcases hw : w.printSectionFooter with _ | f <;> rw [hw] at h
    · obtain ⟨h1, h2⟩ := Prod.mk.injEq .. ▸ Option.some.injEq .. ▸ h
      subst h2
      refine ⟨?_, by simp [hookOpens], by simp [hw, hookCloses]⟩
      rw [← h1]
      dsimp only
      exact congrArg (fun z => z - 1) (footer_wc_level st.wc)
    · obtain ⟨h1, h2⟩ := Prod.mk.injEq .. ▸ Option.some.injEq .. ▸ h
      subst h2
      refine ⟨?_, by simp [hookOpens], by simp [hw, hookCloses]⟩
      rw [← h1]
      dsimp only
      rw [hf f hw]
      exact congrArg (fun z => z - 1) (footer_wc_level st.wc)

theorem print_integer_step_level {P : Type} {w : Writer' P} (hi : printIntKeepsLevel w)
    (st : WState P) (key : CStr) (v : Int) :
    (writer_print_integer w st key v).1.wc.level = st.wc.level ∧
    hookOpens (writer_print_integer w st key v).2 = 0 ∧
    hookCloses (writer_print_integer w st key v).2 = 0 := by
  rw [writer_print_integer]
  split
  · exact ⟨hi st.wc st.priv key v, rfl, rfl⟩
  · exact ⟨rfl, rfl, rfl⟩

theorem print_string_step_level {P : Type} {w : Writer' P} (hs : printStrKeepsLevel w)
    (st : WState P) (key val : CStr) (flags : Nat) :
    (writer_print_string w st key val flags).1.wc.level = st.wc.level ∧
    hookOpens (writer_print_string w st key val flags).2.1 = 0 ∧
    hookCloses (writer_print_string w st key val flags).2.1 = 0 := by
  rcases hK : validate_string st.wc key with ⟨retK, key1, warnK⟩
  rcases hV : validate_string st.wc val with ⟨retV, val1, warnV⟩
  rw [writer_print_string]
  split
  · exact ⟨rfl, rfl, rfl⟩
  · split
    · rw [hK, hV]
      dsimp only
      split
      · split
        · exact ⟨rfl, rfl, rfl⟩
        · split
          · exact ⟨rfl, rfl, rfl⟩
          · exact ⟨hs st.wc st.priv key1 val1, rfl, rfl⟩
      · exact ⟨hs st.wc st.priv key val, rfl, rfl⟩
    · exact ⟨rfl, rfl, rfl⟩

theorem hookOpens_append (a b : List Event) :
    hookOpens (a ++ b) = hookOpens a + hookOpens b := by
  simp [hookOpens, List.countP_append]

theorem hookCloses_append (a b : List Event) :
    hookCloses (a ++ b) = hookCloses a + hookCloses b := by
  simp [hookCloses, List.countP_append]

theorem nOpens_cons (op : Op) (rest : List Op) :
    nOpens (op :: rest) = nOpens [op] + nOpens rest := by
  simp [nOpens, List.countP_cons]
  omega

theorem nCloses_cons (op : Op) (rest : List Op) :
    nCloses (op :: rest) = nCloses [op] + nCloses rest := by
  simp [nCloses, List.countP_cons]
  omega

theorem ite_add_ite_zero (c : Prop) [Decidable c] (a b : Nat) :
    (if c then a else 0) + (if c then b else 0) = if c then a + b else 0 := by
  split <;> simp

/-- Bookkeeping along a run: on success the cursor's level has moved by the
difference between opens and closes, and the hook-invocation counts in the
trace are the open/close call counts when the respective hook is defined and
zero when it is not. -/
theorem writer_run_level_counts {P : Type} (w : Writer' P)
    (hh : headerKeepsLevel w) (hf : footerKeepsLevel w)
    (hi : printIntKeepsLevel w) (hs : printStrKeepsLevel w) :
    ∀ (ops : List Op) (st : WState P) (res : WState P × List Event),
      writer_run w st ops = some res →
      res.1.wc.level + (nCloses ops : Int) = st.wc.level + (nOpens ops : Int) ∧
      hookOpens res.2 = (if w.printSectionHeader.isSome then nOpens ops else 0) ∧
      hookCloses res.2 = (if w.printSectionFooter.isSome then nCloses ops else 0) := by
  intro ops
  induction ops with
  | nil =>
    intro st res h
    rw [writer_run] at h
    obtain rfl := (Option.some.injEq .. ▸ h).symm
    constructor
    · simp [nOpens, nCloses]
    · constructor <;> simp [nOpens, nCloses, hookOpens, hookCloses]
  | cons op rest ih =>
    intro st res h
    rw [writer_run.eq_def] at h
    dsimp only at h
    rcases hstep : writer_step w st op with _ | p
    · rw [hstep] at h; exact absurd h (by simp)
    · rw [hstep] at h
      obtain ⟨st1, evs⟩ := p
      dsimp only at h
      rcases hrest : writer_run w st1 rest with _ | q
      · rw [hrest] at h; exact absurd h (by simp)
      · rw [hrest] at h
        obtain ⟨st2, evs2⟩ := q
        obtain rfl := (Option.some.injEq .. ▸ h).symm
        obtain ⟨ihl, ihopen, ihclose⟩ := ih st1 (st2, evs2) hrest
        have step3 :
            st1.wc.level + (nCloses [op] : Int) = st.wc.level + (nOpens [op] : Int) ∧
            hookOpens evs = (if w.printSectionHeader.isSome then nOpens [op] else 0) ∧
            hookCloses evs = (if w.printSectionFooter.isSome then nCloses [op] else 0) := by
          cases op with
          | openSection id data =>
            obtain ⟨h1, h2, h3⟩ := header_step_level hh hstep
            refine ⟨?_, ?_, ?_⟩
            · rw [h1]; simp [nOpens, nCloses]
            · rw [h2]; simp [nOpens]
            · rw [h3]; simp [nCloses]
          | closeSection =>
            obtain ⟨h1, h2, h3⟩ := footer_step_level hf hstep
            refine ⟨?_, ?_, ?_⟩
            · rw [h1]; simp [nOpens, nCloses]; try omega
            · rw [h2]; simp [nOpens]
            · rw [h3]; simp [nCloses]
          | printInteger key v =>
            have hp : writer_print_integer w st key v = (st1, evs) :=
              Option.some.inj hstep
            obtain ⟨h1, h2, h3⟩ := print_integer_step_level hi st key v
            rw [hp] at h1 h2 h3
            refine ⟨?_, ?_, ?_⟩
            · rw [h1]; simp [nOpens, nCloses]
            · rw [h2]; simp [nOpens]
            · rw [h3]; simp [nCloses]
          | printString key val flags =>
            have hp : ((writer_print_string w st key val flags).1,
                (writer_print_string w st key val flags).2.1) = (st1, evs) :=
              Option.some.inj hstep
            have e1 : (writer_print_string w st key val flags).1 = st1 :=
              congrArg Prod.fst hp
            have e2 : (writer_print_string w st key val flags).2.1 = evs :=
              congrArg Prod.snd hp
            obtain ⟨h1, h2, h3⟩ := print_string_step_level hs st key val flags
            rw [e1] at h1
            rw [e2] at h2 h3
            refine ⟨?_, ?_, ?_⟩
            · rw [h1]; simp [nOpens, nCloses]
            · rw [h2]; simp [nOpens]
            · rw [h3]; simp [nCloses]
        obtain ⟨s1, s2, s3⟩ := step3
        dsimp only at ihl ihopen ihclose ⊢
        refine ⟨?_, ?_, ?_⟩
        · rw [nOpens_cons, nCloses_cons]
          push_cast
          omega
        · rw [hookOpens_append, s2, ihopen, ite_add_ite_zero, ← nOpens_cons]
        · rw [hookCloses_append, s3, ihclose, ite_add_ite_zero, ← nCloses_cons]

theorem default_writer_header_keeps_level : headerKeepsLevel default_writer := by
  intro f hf wc p d
  obtain rfl := Option.some.inj hf
  rw [default_print_section_header]
  dsimp only
  repeat' split
  all_goals rfl

theorem default_writer_footer_keeps_level : footerKeepsLevel default_writer := by
  intro f hf wc p
  obtain rfl := Option.some.inj hf
  rw [default_print_section_footer]
  repeat' split
  all_goals rfl

theorem default_writer_print_int_keeps_level : printIntKeepsLevel default_writer := by
  intro wc p k v
  rfl

theorem default_writer_print_str_keeps_level : printStrKeepsLevel default_writer := by
  intro wc p k v
  rfl

theorem flat_writer_header_keeps_level : headerKeepsLevel flat_writer := by
  intro f hf wc p d
  obtain rfl := Option.some.inj hf
  rw [flat_print_section_header]
  dsimp only
  repeat' split
  all_goals rfl

theorem flat_writer_footer_keeps_level : footerKeepsLevel flat_writer := by
  intro f hf
  exact absurd hf (by simp [flat_writer])

theorem flat_writer_print_int_keeps_level : printIntKeepsLevel flat_writer := by
  intro wc p k v
  rfl

theorem flat_writer_print_str_keeps_level : printStrKeepsLevel flat_writer := by
  intro wc p k v
  rfl

/-- Claim C2 (amended): after any balanced call sequence (as many closes as
opens) that runs to completion from a fresh cursor, the cursor's `level` is
back at its initial value -1 — not 0: `writer_open` creates the context with
`level = -1` and Root's open raises it to 0 — and, for every backend that
defines both the section-open and section-close hooks, the two hook-invocation
counts are equal.  (The flat and INI backends define no close hook, so for
them the close-hook count stays 0.) -/
theorem claim2_balance {P : Type} (w : Writer' P)
    (hh : headerKeepsLevel w) (hf : footerKeepsLevel w)
    (hi : printIntKeepsLevel w) (hs : printStrKeepsLevel w)
    (reg : Registry) (p : P) (ops : List Op) (res : WState P × List Event)
    (hbal : nOpens ops = nCloses ops)
    (hrun : writer_run w ⟨initWCtx reg, p⟩ ops = some res) :
    res.1.wc.level = -1 ∧
    (w.printSectionHeader.isSome = true → w.printSectionFooter.isSome = true →
      hookOpens res.2 = hookCloses res.2) := by
  obtain ⟨hl, ho, hc⟩ := writer_run_level_counts w hh hf hi hs ops ⟨initWCtx reg, p⟩ res hrun
  have hinit : (⟨initWCtx reg, p⟩ : WState P).wc.level = -1 := rfl
  rw [hinit, hbal] at hl
  constructor
  · omega
  · intro h1 h2
    rw [ho, hc, if_pos h1, if_pos h2, hbal]

/-- Call sequence used by the C2 witness: open Root, close Root. -/
def c2ops : List Op := [Op.openSection SECTION_ID_ROOT "", Op.closeSection]

/-- Result of running `c2ops` with the default writer. -/
def c2res : WState DefaultContext × List Event :=
  (writer_run default_writer ⟨initWCtx sections, {}⟩ c2ops).getD (⟨initWCtx sections, {}⟩, [])

/-- Witness for C2: the default backend (both hooks defined) driven through
open Root, close Root ends at level -1 with one open-hook and one close-hook
invocation. -/
theorem claim2_witness :
    nOpens c2ops = nCloses c2ops ∧
    c2res.1.wc.level = -1 ∧
    (default_writer.printSectionHeader.isSome = true →
      default_writer.printSectionFooter.isSome = true →
      hookOpens c2res.2 = hookCloses c2res.2) := by
  have hsome : (writer_run default_writer ⟨initWCtx sections, {}⟩ c2ops).isSome = true := by
    decide
  have hrun : writer_run default_writer ⟨initWCtx sections, {}⟩ c2ops = some c2res := by
    unfold c2res
    cases ho : writer_run default_writer ⟨initWCtx sections, {}⟩ c2ops with
    | none => rw [ho] at hsome; simp at hsome
    | some a => rfl
  have := claim2_balance default_writer default_writer_header_keeps_level
    default_writer_footer_keeps_level default_writer_print_int_keeps_level
    default_writer_print_str_keeps_level sections {} c2ops c2res (by decide) hrun
  exact ⟨by decide, this.1, this.2⟩

/-- Counterexample for C2 as stated: with the flat backend (which defines an
open hook but no close hook), open Root followed by close Root leaves the
cursor at level -1 — not 0 as the claim says — and produces one open-hook
invocation against zero close-hook invocations. -/
theorem claim2_counterexample :
    ((writer_run flat_writer ⟨initWCtx sections, flatCtx0⟩
        [Op.openSection SECTION_ID_ROOT "", Op.closeSection]).map
      (fun r => (r.1.wc.level, hookOpens r.2, hookCloses r.2))) = some (-1, 1, 0) ∧
    ((-1 : Int) ≠ 0 ∧ (1 : Nat) ≠ 0) := by
  exact ⟨by decide, by decide, by decide⟩

theorem header_isSome {P : Type} (w : Writer' P) (st : WState P)
    (data : String) (section_id : Nat)
    (h : st.wc.level + 1 < (SECTION_MAX_NB_LEVELS : Int)) :
    (writer_print_section_header w st data section_id).isSome = true := by
  rw [writer_print_section_header]
  simp only [if_pos h]
  rcases hw : w.printSectionHeader with _ | f <;> simp [hw]

/-- Successive opens succeed as long as the depth bound is respected. -/
theorem writer_run_opens {P : Type} (w : Writer' P) (hh : headerKeepsLevel w) :
    ∀ (ids : List Nat) (st : WState P),
      st.wc.level + (ids.length : Int) ≤ (SECTION_MAX_NB_LEVELS : Int) - 1 →
      (writer_run w st (ids.map (fun i => Op.openSection i ""))).isSome = true := by
  intro ids
  induction ids with
  | nil =>
    intro st _
    simp [writer_run]
  | cons id rest ih =>
    intro st h
    have hopen : st.wc.level + 1 < (SECTION_MAX_NB_LEVELS : Int) := by
      have hlen : ((id :: rest).length : Int) = (rest.length : Int) + 1 := by
        push_cast [List.length_cons]; ring
      rw [hlen] at h
      have hnn : (0 : Int) ≤ (rest.length : Int) := Int.natCast_nonneg _
      omega
    rcases hh1 : writer_step w st (Op.openSection id "") with _ | p
    · have := header_isSome w st "" id hopen
      rw [show writer_step w st (Op.openSection id "") =
        writer_print_section_header w st "" id from rfl] at hh1
      rw [hh1] at this
      simp at this
    · obtain ⟨st1, evs⟩ := p
      have hh1' : writer_print_section_header w st "" id = some (st1, evs) := hh1
      obtain ⟨h1, _, _⟩ := header_step_level hh hh1'
      rw [List.map_cons, writer_run.eq_def]
      dsimp only
      rw [hh1]
      dsimp only
      have hrec : (writer_run w st1 (rest.map (fun i => Op.openSection i ""))).isSome
          = true := by
        apply ih st1
        rw [h1]
        have hlen : ((id :: rest).length : Int) = (rest.length : Int) + 1 := by
          push_cast [List.length_cons]; ring
        rw [hlen] at h
        omega
      rcases hr : writer_run w st1 (rest.map (fun i => Op.openSection i "")) with _ | q
      · rw [hr] at hrec; simp at hrec
      · simp

/-- Claim C8 (amended): from a fresh cursor, any sequence of at most
`SECTION_MAX_NB_LEVELS` (= 12) nested opens succeeds without aborting, for
every backend; the depth assertion bounds the supported depth, and the
registry even admits a fully legal 13-deep chain that trips it (see the
counterexample). -/
theorem claim8_depth_bound {P : Type} (w : Writer' P) (hh : headerKeepsLevel w)
    (reg : Registry) (p : P) (ids : List Nat)
    (hlen : ids.length ≤ SECTION_MAX_NB_LEVELS) :
    (writer_run w ⟨initWCtx reg, p⟩ (ids.map (fun i => Op.openSection i ""))).isSome
      = true := by
  apply writer_run_opens w hh ids
  have hinit : (⟨initWCtx reg, p⟩ : WState P).wc.level = -1 := rfl
  rw [hinit]
  have : (ids.length : Int) ≤ (SECTION_MAX_NB_LEVELS : Int) := by exact_mod_cast hlen
  omega

/-- Legality of a chain of section opens: each id is a declared child of its
predecessor. -/
def legalPath : List Nat → Bool
  | a :: b :: rest => (sections a).childrenIds.contains b && legalPath (b :: rest)
  | _ => true

/-- The deepest legal chain of the registry: Root, stream groups, components,
subcomponents, pieces, subpieces, blocks — 13 nested sections. -/
def c8chain : List Nat := [58, 57, 42, 43, 44, 45, 46, 47, 48, 49, 50, 51, 52]

/-- Witness for C8: the first 12 sections of the legal stream-group chain open
without aborting under the default backend. -/
theorem claim8_witness :
    (c8chain.take 12).length ≤ SECTION_MAX_NB_LEVELS ∧
    (writer_run default_writer ⟨initWCtx sections, {}⟩
      ((c8chain.take 12).map (fun i => Op.openSection i ""))).isSome = true := by
  refine ⟨by decide, ?_⟩
  exact claim8_depth_bound default_writer default_writer_header_keeps_level
    sections {} (c8chain.take 12) (by decide)

/-- Counterexample for C8 as stated: the 13-deep chain is legal at every step
(each id is a declared child of its predecessor), yet the 13th open trips
`av_assert0(wctx->level < SECTION_MAX_NB_LEVELS)` and the run aborts, so the
engine does not handle arbitrary nesting depth. -/
theorem claim8_counterexample :
    legalPath c8chain = true ∧
    (writer_run default_writer ⟨initWCtx sections, {}⟩
      (c8chain.map (fun i => Op.openSection i ""))).isNone = true := by
  exact ⟨by decide, by decide⟩
theorem list_any_congr {α : Type} (l : List α) (f g : α → Bool)
    (h : ∀ x, f x = g x) : l.any f = l.any g := by
  induction l with
  | nil => rfl
  | cons a l ih => simp [List.any_cons, h a, ih]

theorem mark_childrenIds (fuel : Nat) :
    ∀ (reg : Registry) (sid : Nat) (sa : Bool) (es : List String) (t : Nat),
      ((mark_section_show_entries fuel reg sid sa es) t).childrenIds =
        (reg t).childrenIds := by
  induction fuel with
  | zero => intro reg sid sa es t; rfl
  | succ fuel ih =>
    intro reg sid sa es t
    cases sa with
    | false =>
      rw [mark_section_show_entries]
      rw [if_neg (by simp)]
      simp only [updateReg]
      repeat' split
      all_goals rfl
    | true =>
      rw [mark_section_show_entries]
      rw [if_pos rfl]
      have aux : ∀ (cs : List Nat) (r : Registry),
          ((cs.foldl (fun r c => mark_section_show_entries fuel r c true es) r) t).childrenIds
            = (r t).childrenIds := by
        intro cs
        induction cs with
        | nil => intro r; rfl
        | cons c cs ihc =>
          intro r
          rw [List.foldl_cons, ihc, ih]
      rw [aux]
      simp only [updateReg]
      split <;> rfl

theorem reachesWithin_congr (fuel : Nat) :
    ∀ (r1 r2 : Registry), (∀ i, (r1 i).childrenIds = (r2 i).childrenIds) →
      ∀ a b, reachesWithin fuel r1 a b = reachesWithin fuel r2 a b := by
  induction fuel with
  | zero => intro r1 r2 h a b; rfl
  | succ fuel ih =>
    intro r1 r2 h a b
    rw [reachesWithin, reachesWithin, h a]
    congr 1
    exact list_any_congr _ _ _ (fun c => ih r1 r2 h c b)

theorem mark_true_flag (fuel : Nat) :
    ∀ (reg : Registry) (sid : Nat) (es : List String) (t : Nat),
      ((mark_section_show_entries fuel reg sid true es) t).showAllEntries =
        ((reg t).showAllEntries || reachesWithin fuel reg sid t) := by
  induction fuel with
  | zero => intro reg sid es t; simp [mark_section_show_entries, reachesWithin]
  | succ fuel ih =>
    intro reg sid es t
    rw [mark_section_show_entries, reachesWithin]
    rw [if_pos rfl]
    have hreg1 : ∀ i,
        ((updateReg reg sid (fun sec => { sec with showAllEntries := true })) i).childrenIds
          = (reg i).childrenIds := by
      intro i
      simp only [updateReg]
      split <;> rfl
    have aux : ∀ (cs : List Nat) (r : Registry),
        (∀ i, (r i).childrenIds = (reg i).childrenIds) →
        ((cs.foldl (fun r c => mark_section_show_entries fuel r c true es) r) t).showAllEntries
          = ((r t).showAllEntries || cs.any (fun c => reachesWithin fuel reg c t)) := by
      intro cs
      induction cs with
      | nil => intro r _; simp
      | cons c cs ihc =>
        intro r hr
        rw [List.foldl_cons]
        rw [ihc (mark_section_show_entries fuel r c true es)
          (fun i => by rw [mark_childrenIds fuel r c true es i]; exact hr i)]
        rw [ih r c es t]
        rw [reachesWithin_congr fuel r reg hr c t]
        simp [List.any_cons, Bool.or_assoc]
    rw [aux ((reg sid).childrenIds)
      (updateReg reg sid (fun sec => { sec with showAllEntries := true })) hreg1]
    by_cases hts : t = sid
    · subst hts
      simp only [updateReg, if_pos rfl]
      simp
    · simp only [updateReg, if_neg hts]
      have hbeq : (sid == t) = false := by
        simp only [beq_eq_false_iff_ne, ne_eq]
        exact fun hx => hts hx.symm
      rw [hbeq]
      simp [Bool.or_assoc]

theorem mark_true_entries (fuel : Nat) :
    ∀ (reg : Registry) (sid : Nat) (es : List String) (t : Nat),
      ((mark_section_show_entries fuel reg sid true es) t).entriesToShow =
        (reg t).entriesToShow := by
  induction fuel with
  | zero => intro reg sid es t; rfl
  | succ fuel ih =>
    intro reg sid es t
    rw [mark_section_show_entries]
    rw [if_pos rfl]
    have aux : ∀ (cs : List Nat) (r : Registry),
        ((cs.foldl (fun r c => mark_section_show_entries fuel r c true es) r) t).entriesToShow
          = (r t).entriesToShow := by
      intro cs
      induction cs with
      | nil => intro r; rfl
      | cons c cs ihc =>
        intro r
        rw [List.foldl_cons, ihc, ih]
    rw [aux]
    simp only [updateReg]
    split <;> rfl

theorem mark_false_at (fuel : Nat) (reg : Registry) (sid : Nat) (es : List String) :
    ((mark_section_show_entries (fuel + 1) reg sid false es) sid).showAllEntries = false ∧
    ((mark_section_show_entries (fuel + 1) reg sid false es) sid).entriesToShow =
      (reg sid).entriesToShow ++ es := by
  rw [mark_section_show_entries]
  rw [if_neg (by simp)]
  simp only [updateReg, if_pos rfl]
  exact ⟨rfl, rfl⟩

theorem mark_false_ne (fuel : Nat) (reg : Registry) (sid : Nat) (es : List String)
    (t : Nat) (h : t ≠ sid) :
    (mark_section_show_entries (fuel + 1) reg sid false es) t = reg t := by
  rw [mark_section_show_entries]
  rw [if_neg (by simp)]
  simp only [updateReg, if_neg h]

theorem sections_filter_initial (t : Nat) :
    (sections t).showAllEntries = false ∧ (sections t).entriesToShow = [] := by
  rw [sections]
  by_cases h : t < sectionsList.length
  · have hall : sectionsList.all
        (fun s => !s.showAllEntries && s.entriesToShow.isEmpty) = true := by decide
    have hmem : sectionsList.getD t nullSection ∈ sectionsList := by
      rw [List.getD_eq_getElem?_getD, List.getElem?_eq_getElem h]
      exact List.getElem_mem ..
    have := List.all_eq_true.mp hall _ hmem
    simp only [Bool.and_eq_true, Bool.not_eq_true', List.isEmpty_iff] at this
    exact this
  · rw [List.getD_eq_default _ _ (Nat.le_of_not_lt h)]
    exact ⟨rfl, rfl⟩

/-- Claim C5: `mark_section_show_entries` on the ffprobe registry.  With
`show_all_entries` requested, the all-entries flag is set on the target id and
on exactly the ids reachable from it through `children_ids` (within the
`NB_SECTIONS` recursion budget, which covers every chain of the acyclic
registry), and no entry set changes anywhere.  With `show_all_entries`
cleared, the given entry set becomes the filter of the target id alone — its
flag is cleared and, starting from the pristine registry, its filter is
exactly the given set — and every other section's filter state is untouched. -/
theorem claim5_mark_show_entries (id : Nat) (es : List String) (t : Nat) :
    (((mark_section_show_entries NB_SECTIONS sections id true es) t).showAllEntries =
        reachesWithin NB_SECTIONS sections id t ∧
      ((mark_section_show_entries NB_SECTIONS sections id true es) t).entriesToShow =
        (sections t).entriesToShow) ∧
    (((mark_section_show_entries NB_SECTIONS sections id false es) id).showAllEntries =
        false ∧
      ((mark_section_show_entries NB_SECTIONS sections id false es) id).entriesToShow =
        es) ∧
    (t ≠ id →
      ((mark_section_show_entries NB_SECTIONS sections id false es) t).showAllEntries =
          (sections t).showAllEntries ∧
        ((mark_section_show_entries NB_SECTIONS sections id false es) t).entriesToShow =
          (sections t).entriesToShow) := by
  refine ⟨⟨?_, mark_true_entries NB_SECTIONS sections id es t⟩, ⟨?_, ?_⟩, fun h => ?_⟩
  · rw [mark_true_flag NB_SECTIONS sections id es t,
      (sections_filter_initial t).1, Bool.false_or]
  · exact (mark_false_at 65 sections id es).1
  · have h2 := (mark_false_at 65 sections id es).2
    rw [(sections_filter_initial id).2, List.nil_append] at h2
    exact h2
  · rw [show (mark_section_show_entries NB_SECTIONS sections id false es) t = sections t
      from mark_false_ne 65 sections id es t h]
    exact ⟨rfl, rfl⟩

/-- Witness for C5: marking Format with show-all sets the flag on Format's
reachable child (the format tags section, id 5); marking Format with the
explicit set `{"a","b"}` installs exactly that filter on Format and leaves
Streams (id 61) untouched. -/
theorem claim5_witness :
    ((5 : Nat) ≠ SECTION_ID_FORMAT ∧ (61 : Nat) ≠ SECTION_ID_FORMAT) ∧
    (((mark_section_show_entries NB_SECTIONS sections SECTION_ID_FORMAT true ["a", "b"])
        5).showAllEntries = reachesWithin NB_SECTIONS sections SECTION_ID_FORMAT 5 ∧
      ((mark_section_show_entries NB_SECTIONS sections SECTION_ID_FORMAT false ["a", "b"])
        SECTION_ID_FORMAT).entriesToShow = ["a", "b"] ∧
      ((mark_section_show_entries NB_SECTIONS sections SECTION_ID_FORMAT false ["a", "b"])
        61).showAllEntries = (sections 61).showAllEntries) ∧
    (reachesWithin NB_SECTIONS sections SECTION_ID_FORMAT 5 = true ∧
      reachesWithin NB_SECTIONS sections SECTION_ID_FORMAT 61 = false) := by
  refine ⟨⟨by decide, by decide⟩, ⟨?_, ?_, ?_⟩, by decide, by decide⟩
  · exact (claim5_mark_show_entries SECTION_ID_FORMAT ["a", "b"] 5).1.1
  · exact (claim5_mark_show_entries SECTION_ID_FORMAT ["a", "b"] 5).2.1.2
  · exact ((claim5_mark_show_entries SECTION_ID_FORMAT ["a", "b"] 61).2.2
      (by decide)).1

/- ### Claim C6: string validation modes -/

/-- The byte string `"bad\xFF byte"`: valid ASCII around one invalid UTF-8
lead byte. -/
def badTitle : CStr := ascii "bad" ++ [0xFF] ++ ascii " byte"

/-- Cursor inside the shown Format section with replacement string `"?"`
(validation mode is already `replace`, the `writer_options` default). -/
def c6wcReplace : WCtx := { fmtWC with stringValidationReplacement := ascii "?" }

/-- The same cursor in `fail` validation mode. -/
def c6wcFail : WCtx := { fmtWC with stringValidation := WRITER_STRING_VALIDATION_FAIL }

/-- Claim C6: emitting `("title", "bad\xFF byte")` with validation requested,
under replace mode with replacement `"?"`, validates the value to
`"bad? byte"` with the one-line warning logged, forwards exactly that field to
the backend (rendered `title=bad? byte\n` by the default backend) and returns
0; under fail mode the same call forwards nothing and returns
`AVERROR_INVALIDDATA`. -/
theorem claim6_validation_modes :
    validate_string c6wcReplace badTitle = (0, ascii "bad? byte", true) ∧
    (writer_print_string default_writer ⟨c6wcReplace, {}⟩ (ascii "title") badTitle
        PRINT_STRING_VALIDATE).2 =
      ([Event.printStr (ascii "title") (ascii "bad? byte")], 0) ∧
    (writer_print_string default_writer ⟨c6wcReplace, {}⟩ (ascii "title") badTitle
        PRINT_STRING_VALIDATE).1.wc.output = ascii "title=bad? byte\n" ∧
    (writer_print_string default_writer ⟨c6wcFail, {}⟩ (ascii "title") badTitle
        PRINT_STRING_VALIDATE).2 = ([], AVERROR_INVALIDDATA) := by
  exact ⟨by decide, by decide, by decide, by decide⟩

/- ### Claim C7: default backend output for the Format scenario -/

/-- The C7 scenario: open Root, open Format, emit `format_name=mp4`, close
Format, close Root. -/
def c7ops : List Op :=
  [Op.openSection SECTION_ID_ROOT "", Op.openSection SECTION_ID_FORMAT "",
   Op.printString (ascii "format_name") (ascii "mp4") 0,
   Op.closeSection, Op.closeSection]

set_option maxHeartbeats 2000000 in
/-- Claim C7 (amended): with the default backend, the sequence open Root, open
Format, `emit_string("format_name","mp4")`, close Format, close Root produces
exactly the bytes `"[FORMAT]\nformat_name=mp4\n[/FORMAT]\n"` — Root, a wrapper
section, contributes no bracket lines, and the default footer appends no
trailing blank line after `[/FORMAT]`. -/
theorem claim7_default_format_output :
    (writer_run default_writer ⟨initWCtx fmtShownReg, {}⟩ c7ops).map
      (fun r => r.1.wc.output) =
    some (ascii "[FORMAT]\nformat_name=mp4\n[/FORMAT]\n") := by decide

set_option maxHeartbeats 2000000 in
/-- Counterexample for C7 as stated: the scenario does not produce the claimed
bytes `"[FORMAT]\nformat_name=mp4\n[/FORMAT]\n\n"` — `default_print_section_footer`
prints only `[/NAME]` and a single newline, no blank line follows. -/
theorem claim7_counterexample :
    (writer_run default_writer ⟨initWCtx fmtShownReg, {}⟩ c7ops).map
      (fun r => r.1.wc.output) ≠
    some (ascii "[FORMAT]\nformat_name=mp4\n[/FORMAT]\n\n") := by decide

/- ### Claim C9: the csv writer is the compact writer under other defaults -/

/-- Two writer tables with the same callbacks and flags make identical single
cursor steps, whatever the `name` field says. -/
theorem writer_step_congr {P : Type} (w1 w2 : Writer' P)
    (h1 : w1.printSectionHeader = w2.printSectionHeader)
    (h2 : w1.printSectionFooter = w2.printSectionFooter)
    (h3 : w1.printInteger = w2.printInteger)
    (h4 : w1.printString = w2.printString)
    (h5 : w1.flags = w2.flags) (st : WState P) (op : Op) :
    writer_step w1 st op = writer_step w2 st op := by
  cases op <;>
    simp only [writer_step, writer_print_section_header, writer_print_section_footer,
      writer_print_integer, writer_print_string, h1, h2, h3, h4, h5]

/-- Two writer tables with the same callbacks and flags drive any call sequence
to the same result. -/
theorem writer_run_congr {P : Type} (w1 w2 : Writer' P)
    (h1 : w1.printSectionHeader = w2.printSectionHeader)
    (h2 : w1.printSectionFooter = w2.printSectionFooter)
    (h3 : w1.printInteger = w2.printInteger)
    (h4 : w1.printString = w2.printString)
    (h5 : w1.flags = w2.flags) :
    ∀ (ops : List Op) (st : WState P), writer_run w1 st ops = writer_run w2 st ops := by
  intro ops
  induction ops with
  | nil => intro st; rfl
  | cons op rest ih =>
    intro st
    rw [writer_run.eq_def]
    conv_rhs => rw [writer_run.eq_def]
    dsimp only
    rw [writer_step_congr w1 w2 h1 h2 h3 h4 h5 st op]
    cases hstep : writer_step w2 st op with
    | none => rfl
    | some p =>
      obtain ⟨st1, evs⟩ := p
      dsimp only
      rw [ih st1]

/-- Claim C9: the csv backend is the compact backend under different option
defaults — `csv_options` resolves under `compact_init` to exactly the compact
configuration with item separator `","`, `nokey` set and csv escaping, the two
writer tables share all four callbacks and the flags, and consequently every
call sequence from every state produces byte-for-byte the same result under
both writers. -/
theorem claim9_csv_is_compact :
    compact_init csv_options =
      compact_init { compact_options with
        itemSepStr := ",", nokey := true, escapeModeStr := "csv" } ∧
    csv_writer.printSectionHeader = compact_writer.printSectionHeader ∧
    csv_writer.printSectionFooter = compact_writer.printSectionFooter ∧
    csv_writer.printInteger = compact_writer.printInteger ∧
    csv_writer.printString = compact_writer.printString ∧
    ∀ (st : WState CompactContext) (ops : List Op),
      writer_run csv_writer st ops = writer_run compact_writer st ops := by
  refine ⟨rfl, rfl, rfl, rfl, rfl, fun st ops => ?_⟩
  exact writer_run_congr csv_writer compact_writer rfl rfl rfl rfl rfl ops st

/- ### Claim C4: section display-filter correctness across backends -/

/-- The registry with one section carrying the C4 configuration:
`show_all_entries = 0` and `entries_to_show = {"a","b"}` (the state set up by
`mark_section_show_entries id false {"a","b"}` on a virgin section). -/
def reg4 (id : Nat) : Registry :=
  updateReg sections id
    (fun sec => { sec with showAllEntries := false, entriesToShow := ["a", "b"] })

/-- The C4 scenario: open the filtered section, emit string `a`, integer `b`,
string `c`, integer `c`. -/
def c4ops (id : Nat) : List Op :=
  [Op.openSection id "",
   Op.printString (ascii "a") (ascii "va") 0,
   Op.printInteger (ascii "b") 17,
   Op.printString (ascii "c") (ascii "vc") 0,
   Op.printInteger (ascii "c") 5]

/-- The field emissions the C4 scenario must produce: exactly `a` and `b`. -/
def c4events : List Event :=
  [Event.printStr (ascii "a") (ascii "va"), Event.printInt (ascii "b") 17]

/-- Cursor invariant for the C4 scenario: sitting at level 0 inside the
filtered section, `n` items emitted there so far. -/
structure C4Ok (id : Nat) (n : Nat) (wc : WCtx) : Prop where
  secs : wc.sections = reg4 id
  lvl : wc.level = 0
  item : wc.nbItem.getD 0 0 = n
  len : wc.nbItem.length = SECTION_MAX_NB_LEVELS
  sid : wc.sectionIds.getD 0 0 = id
  sof : wc.showOptionalFields = SHOW_OPTIONAL_FIELDS_AUTO

/-- A backend is tame for the C4 argument when its section-open hook (run at
level 0) and its field callbacks leave the cursor bookkeeping — registry,
level, item counters, section stack, optional-fields policy — unchanged,
whatever they do to the rendered output and their private context. -/
def cursorTameAt0 {P : Type} (w : Writer' P) : Prop :=
  (∀ f, w.printSectionHeader = some f → ∀ wc p d, wc.level = 0 →
    (f wc p d).1.sections = wc.sections ∧ (f wc p d).1.level = wc.level ∧
    (f wc p d).1.nbItem = wc.nbItem ∧ (f wc p d).1.sectionIds = wc.sectionIds ∧
    (f wc p d).1.showOptionalFields = wc.showOptionalFields) ∧
  (∀ wc p k v, (w.printInteger wc p k v).1.sections = wc.sections ∧
    (w.printInteger wc p k v).1.level = wc.level ∧
    (w.printInteger wc p k v).1.nbItem = wc.nbItem ∧
    (w.printInteger wc p k v).1.sectionIds = wc.sectionIds ∧
    (w.printInteger wc p k v).1.showOptionalFields = wc.showOptionalFields) ∧
  (∀ wc p k v, (w.printString wc p k v).1.sections = wc.sections ∧
    (w.printString wc p k v).1.level = wc.level ∧
    (w.printString wc p k v).1.nbItem = wc.nbItem ∧
    (w.printString wc p k v).1.sectionIds = wc.sectionIds ∧
    (w.printString wc p k v).1.showOptionalFields = wc.showOptionalFields)

/-- Under the C4 invariant the current section is the filtered section. -/
theorem c4_currentSection {id n : Nat} {wc : WCtx} (h : C4Ok id n wc) :
    currentSection wc =
      { sections id with showAllEntries := false, entriesToShow := ["a", "b"] } := by
  rw [currentSection, h.secs, h.lvl]
  rw [show ((0 : Int).toNat) = 0 from rfl, h.sid]
  rw [reg4, updateReg]
  dsimp only
  rw [if_pos rfl]

/-- Under the C4 invariant the display filter is exactly the dictionary
lookup in `{"a","b"}`. -/
theorem c4_filter {id n : Nat} {wc : WCtx} (h : C4Ok id n wc) (key : CStr) :
    entryFilter (currentSection wc) key = av_dict_get ["a", "b"] key := by
  rw [c4_currentSection h, entryFilter]
  dsimp only
  rw [Bool.false_or]

/-- Core of the C4 open step: the backend open hook, run at level 0 by a tame
backend, preserves the C4 invariant. -/
theorem c4_open_core {P : Type} {w : Writer' P} (hw : cursorTameAt0 w) {id : Nat}
    (wc0 : WCtx) (p : P) (h0 : C4Ok id 0 wc0) {f : WCtx → P → String → WCtx × P}
    (hw0 : w.printSectionHeader = some f) :
    ∃ st1 evs1,
      some ((⟨(f wc0 p "").1, (f wc0 p "").2⟩ : WState P), [Event.openHook]) =
        some (st1, evs1) ∧
      C4Ok id 0 st1.wc ∧ printEvents evs1 = [] := by
  rcases hp : f wc0 p "" with ⟨wcf, pf⟩
  have hfacts := hw.1 f hw0 wc0 p "" h0.lvl
  rw [hp] at hfacts
  dsimp only at hfacts
  refine ⟨⟨wcf, pf⟩, [Event.openHook], rfl, ?_, rfl⟩
  exact ⟨hfacts.1.trans h0.secs, hfacts.2.1.trans h0.lvl,
    by rw [hfacts.2.2.1]; exact h0.item,
    by rw [hfacts.2.2.1]; exact h0.len,
    by rw [hfacts.2.2.2.1]; exact h0.sid,
    hfacts.2.2.2.2.trans h0.sof⟩

/-- Opening the filtered section from the initial cursor succeeds, emits no
field, and establishes the C4 invariant with zero items. -/
theorem c4_open_step {P : Type} {w : Writer' P} (hw : cursorTameAt0 w) (id : Nat) (p : P) :
    ∃ st1 evs1,
      writer_step w ⟨initWCtx (reg4 id), p⟩ (Op.openSection id "") = some (st1, evs1) ∧
      C4Ok id 0 st1.wc ∧ printEvents evs1 = [] := by
  rw [show writer_step w ⟨initWCtx (reg4 id), p⟩ (Op.openSection id "") =
      writer_print_section_header w ⟨initWCtx (reg4 id), p⟩ "" id from rfl]
  rw [writer_print_section_header]
  rcases hw0 : w.printSectionHeader with _ | f <;> dsimp only
  · split
    · refine ⟨_, _, rfl, ?_, rfl⟩
      refine ⟨?_, ?_, ?_, ?_, ?_, ?_⟩ <;> (repeat' split) <;> rfl
    · next hfalse =>
        exact absurd (show (initWCtx (reg4 id)).level + 1 < (SECTION_MAX_NB_LEVELS : Int)
          by norm_num [initWCtx, SECTION_MAX_NB_LEVELS]) hfalse
  · split
    · refine c4_open_core hw _ p ?_ hw0
      refine ⟨?_, ?_, ?_, ?_, ?_, ?_⟩ <;> (repeat' split) <;> rfl
    · next hfalse =>
        exact absurd (show (initWCtx (reg4 id)).level + 1 < (SECTION_MAX_NB_LEVELS : Int)
          by norm_num [initWCtx, SECTION_MAX_NB_LEVELS]) hfalse

/-- `writer_print_string` without flags under the C4 invariant reduces to the
dictionary filter: policy gate open (`show_optional_fields` is auto, no
`PRINT_STRING_OPT`), no validation requested. -/
theorem c4_print_string_eq {P : Type} {w : Writer' P} {id n : Nat} {st : WState P}
    (h : C4Ok id n st.wc) (key val : CStr) :
    writer_print_string w st key val 0 =
      (if av_dict_get ["a", "b"] key then
        (⟨{ (w.printString st.wc st.priv key val).1 with
              nbItem := updf (w.printString st.wc st.priv key val).1.nbItem
                (w.printString st.wc st.priv key val).1.level.toNat
                ((w.printString st.wc st.priv key val).1.nbItem.getD
                  (w.printString st.wc st.priv key val).1.level.toNat 0 + 1) },
          (w.printString st.wc st.priv key val).2⟩,
         [Event.printStr key val], 0)
      else (st, [], 0)) := by
  have hgate : ¬(st.wc.showOptionalFields = SHOW_OPTIONAL_FIELDS_NEVER ∨
      (st.wc.showOptionalFields = SHOW_OPTIONAL_FIELDS_AUTO ∧
       (0 : Nat) &&& PRINT_STRING_OPT ≠ 0 ∧
       w.flags &&& WRITER_FLAG_DISPLAY_OPTIONAL_FIELDS = 0)) := by
    rintro (hc | ⟨-, hc2, -⟩)
    · rw [h.sof] at hc; exact absurd hc (by decide)
    · exact hc2 (by decide)
  rw [writer_print_string]
  dsimp only
  rw [if_neg hgate, c4_filter h]
  rw [if_neg (show ¬((0 : Nat) &&& PRINT_STRING_VALIDATE ≠ 0) by decide)]

/-- The C4 string-emission step: a key passing the filter is forwarded to the
backend and advances the item counter; a filtered-out key is a silent no-op. -/
theorem c4_str_step {P : Type} {w : Writer' P} (hw : cursorTameAt0 w) {id n : Nat}
    {st : WState P} (h : C4Ok id n st.wc) (key val : CStr) :
    (av_dict_get ["a", "b"] key = true →
      ∃ st', writer_step w st (Op.printString key val 0) =
        some (st', [Event.printStr key val]) ∧ C4Ok id (n + 1) st'.wc) ∧
    (av_dict_get ["a", "b"] key = false →
      writer_step w st (Op.printString key val 0) = some (st, [])) := by
  constructor
  · intro hk
    have he := c4_print_string_eq (w := w) h key val
    rw [hk, if_pos rfl] at he
    rcases hp : w.printString st.wc st.priv key val with ⟨wcp, pp⟩
    rw [hp] at he
    dsimp only at he
    have hfacts := hw.2.2 st.wc st.priv key val
    rw [hp] at hfacts
    dsimp only at hfacts
    refine ⟨⟨{ wcp with nbItem := updf wcp.nbItem wcp.level.toNat (wcp.nbItem.getD wcp.level.toNat 0 + 1) }, pp⟩, ?_, ?_⟩
    · simp only [writer_step]
      rw [he]
    · refine ⟨?_, ?_, ?_, ?_, ?_, ?_⟩
      · show wcp.sections = reg4 id
        rw [hfacts.1, h.secs]
      · show wcp.level = 0
        rw [hfacts.2.1, h.lvl]
      · show (updf wcp.nbItem wcp.level.toNat
          (wcp.nbItem.getD wcp.level.toNat 0 + 1)).getD 0 0 = n + 1
        rw [hfacts.2.2.1, hfacts.2.1, h.lvl]
        rw [show ((0 : Int).toNat) = 0 from rfl]
        rw [updf_getD_self _ _ _ _ (by rw [h.len]; decide), h.item]
      · show (updf wcp.nbItem wcp.level.toNat
          (wcp.nbItem.getD wcp.level.toNat 0 + 1)).length = SECTION_MAX_NB_LEVELS
        rw [updf, List.length_set, hfacts.2.2.1, h.len]
      · show wcp.sectionIds.getD 0 0 = id
        rw [hfacts.2.2.2.1, h.sid]
      · show wcp.showOptionalFields = SHOW_OPTIONAL_FIELDS_AUTO
        rw [hfacts.2.2.2.2, h.sof]
  · intro hk
    have he := c4_print_string_eq (w := w) h key val
    rw [hk, if_neg (by decide)] at he
    simp only [writer_step]
    rw [he]

/-- `writer_print_integer` under the C4 invariant reduces to the dictionary
filter. -/
theorem c4_print_integer_eq {P : Type} {w : Writer' P} {id n : Nat} {st : WState P}
    (h : C4Ok id n st.wc) (key : CStr) (v : Int) :
    writer_print_integer w st key v =
      (if av_dict_get ["a", "b"] key then
        (⟨{ (w.printInteger st.wc st.priv key v).1 with
              nbItem := updf (w.printInteger st.wc st.priv key v).1.nbItem
                (w.printInteger st.wc st.priv key v).1.level.toNat
                ((w.printInteger st.wc st.priv key v).1.nbItem.getD
                  (w.printInteger st.wc st.priv key v).1.level.toNat 0 + 1) },
          (w.printInteger st.wc st.priv key v).2⟩,
         [Event.printInt key v])
      else (st, [])) := by
  rw [writer_print_integer]
  dsimp only
  rw [c4_filter h]

/-- The C4 integer-emission step: a key passing the filter is forwarded to the
backend and advances the item counter; a filtered-out key is a silent no-op. -/
theorem c4_int_step {P : Type} {w : Writer' P} (hw : cursorTameAt0 w) {id n : Nat}
    {st : WState P} (h : C4Ok id n st.wc) (key : CStr) (v : Int) :
    (av_dict_get ["a", "b"] key = true →
      ∃ st', writer_step w st (Op.printInteger key v) =
        some (st', [Event.printInt key v]) ∧ C4Ok id (n + 1) st'.wc) ∧
    (av_dict_get ["a", "b"] key = false →
      writer_step w st (Op.printInteger key v) = some (st, [])) := by
  constructor
  · intro hk
    have he := c4_print_integer_eq (w := w) h key v
    rw [hk, if_pos rfl] at he
    rcases hp : w.printInteger st.wc st.priv key v with ⟨wcp, pp⟩
    rw [hp] at he
    dsimp only at he
    have hfacts := hw.2.1 st.wc st.priv key v
    rw [hp] at hfacts
    dsimp only at hfacts
    refine ⟨⟨{ wcp with nbItem := updf wcp.nbItem wcp.level.toNat (wcp.nbItem.getD wcp.level.toNat 0 + 1) }, pp⟩, ?_, ?_⟩
    · simp only [writer_step]
      rw [he]
    · refine ⟨?_, ?_, ?_, ?_, ?_, ?_⟩
      · show wcp.sections = reg4 id
        rw [hfacts.1, h.secs]
      · show wcp.level = 0
        rw [hfacts.2.1, h.lvl]
      · show (updf wcp.nbItem wcp.level.toNat
          (wcp.nbItem.getD wcp.level.toNat 0 + 1)).getD 0 0 = n + 1
        rw [hfacts.2.2.1, hfacts.2.1, h.lvl]
        rw [show ((0 : Int).toNat) = 0 from rfl]
        rw [updf_getD_self _ _ _ _ (by rw [h.len]; decide), h.item]
      · show (updf wcp.nbItem wcp.level.toNat
          (wcp.nbItem.getD wcp.level.toNat 0 + 1)).length = SECTION_MAX_NB_LEVELS
        rw [updf, List.length_set, hfacts.2.2.1, h.len]
      · show wcp.sectionIds.getD 0 0 = id
        rw [hfacts.2.2.2.1, h.sid]
      · show wcp.showOptionalFields = SHOW_OPTIONAL_FIELDS_AUTO
        rw [hfacts.2.2.2.2, h.sof]
  · intro hk
    have he := c4_print_integer_eq (w := w) h key v
    rw [hk, if_neg (by decide)] at he
    simp only [writer_step]
    rw [he]

theorem printEvents_append (a b : List Event) :
    printEvents (a ++ b) = printEvents a ++ printEvents b := by
  simp [printEvents, List.filter_append]

/-- The C4 scenario under any tame backend: the run succeeds, the field
emissions forwarded to the backend are exactly `a` and `b` in order, and the
level-0 item counter ends at 2 — the filtered-out `c` emissions advanced
nothing. -/
theorem c4_run {P : Type} (w : Writer' P) (hw : cursorTameAt0 w) (id : Nat) (p : P) :
    (writer_run w ⟨initWCtx (reg4 id), p⟩ (c4ops id)).map
      (fun r => (printEvents r.2, r.1.wc.nbItem.getD 0 0)) = some (c4events, 2) := by
  obtain ⟨st1, evs1, h1, hOk1, hev1⟩ := c4_open_step hw id p
  obtain ⟨st2, h2, hOk2⟩ := (c4_str_step hw hOk1 (ascii "a") (ascii "va")).1 (by decide)
  obtain ⟨st3, h3, hOk3⟩ := (c4_int_step hw hOk2 (ascii "b") 17).1 (by decide)
  have h4 := (c4_str_step hw hOk3 (ascii "c") (ascii "vc")).2 (by decide)
  have h5 := (c4_int_step hw hOk3 (ascii "c") 5).2 (by decide)
  rw [show c4ops id = [Op.openSection id "", Op.printString (ascii "a") (ascii "va") 0,
    Op.printInteger (ascii "b") 17, Op.printString (ascii "c") (ascii "vc") 0,
    Op.printInteger (ascii "c") 5] from rfl]
  rw [writer_run.eq_def]
  dsimp only
  rw [h1]
  dsimp only
  rw [writer_run.eq_def]
  dsimp only
  rw [h2]
  dsimp only
  rw [writer_run.eq_def]
  dsimp only
  rw [h3]
  dsimp only
  rw [writer_run.eq_def]
  dsimp only
  rw [h4]
  dsimp only
  rw [writer_run.eq_def]
  dsimp only
  rw [h5]
  dsimp only
  rw [writer_run.eq_def]
  dsimp only
  rw [Option.map_some']
  dsimp only
  rw [printEvents_append, hev1, List.nil_append]
  rw [hOk3.item]
  rfl

/-- The default backend only renders: its hooks never touch the cursor
bookkeeping. -/
theorem default_writer_tame : cursorTameAt0 default_writer := by
  refine ⟨?_, ?_, ?_⟩
  · intro f hf wc p d _
    obtain rfl := Option.some.inj hf
    refine ⟨?_, ?_, ?_, ?_, ?_⟩
    all_goals rw [default_print_section_header]
    all_goals dsimp only
    all_goals repeat' split
    all_goals rfl
  · intro wc p k v
    exact ⟨rfl, rfl, rfl, rfl, rfl⟩
  · intro wc p k v
    exact ⟨rfl, rfl, rfl, rfl, rfl⟩

/-- The compact backend leaves the cursor bookkeeping alone at level 0 (its
nested-section branch, which copies an item count, needs a parent). -/
theorem compact_writer_tame : cursorTameAt0 compact_writer := by
  refine ⟨?_, ?_, ?_⟩
  · intro f hf wc p d hlvl
    obtain rfl := Option.some.inj hf
    rw [compact_print_section_header]
    rw [hlvl]
    simp
    all_goals repeat' split
    all_goals exact ⟨rfl, rfl, rfl, rfl, rfl⟩
  · intro wc p k v
    exact ⟨rfl, rfl, rfl, rfl, rfl⟩
  · intro wc p k v
    exact ⟨rfl, rfl, rfl, rfl, rfl⟩

/-- The csv backend shares the compact callbacks, hence the same tameness. -/
theorem csv_writer_tame : cursorTameAt0 csv_writer := compact_writer_tame

/-- The flat backend only builds key paths and renders lines. -/
theorem flat_writer_tame : cursorTameAt0 flat_writer := by
  refine ⟨?_, ?_, ?_⟩
  · intro f hf wc p d hlvl
    obtain rfl := Option.some.inj hf
    rw [flat_print_section_header]
    rw [hlvl]
    simp
  · intro wc p k v
    exact ⟨rfl, rfl, rfl, rfl, rfl⟩
  · intro wc p k v
    exact ⟨rfl, rfl, rfl, rfl, rfl⟩

/-- Claim C4: for every section id configured with `show_all_entries = false`
and the explicit filter `{"a","b"}`, emitting the fields `a`, `b`, `c` into
that section forwards exactly `a` and `b` to the backend — under each of the
default, compact, csv and flat backends, from any private context — and the
per-level item counter ends at 2: the filtered-out emits are silent no-ops
that do not advance it. -/
theorem claim4_filter_correctness (id : Nat) :
    (∀ p : DefaultContext,
      (writer_run default_writer ⟨initWCtx (reg4 id), p⟩ (c4ops id)).map
        (fun r => (printEvents r.2, r.1.wc.nbItem.getD 0 0)) = some (c4events, 2)) ∧
    (∀ p : CompactContext,
      (writer_run compact_writer ⟨initWCtx (reg4 id), p⟩ (c4ops id)).map
        (fun r => (printEvents r.2, r.1.wc.nbItem.getD 0 0)) = some (c4events, 2)) ∧
    (∀ p : CompactContext,
      (writer_run csv_writer ⟨initWCtx (reg4 id), p⟩ (c4ops id)).map
        (fun r => (printEvents r.2, r.1.wc.nbItem.getD 0 0)) = some (c4events, 2)) ∧
    (∀ p : FlatContext,
      (writer_run flat_writer ⟨initWCtx (reg4 id), p⟩ (c4ops id)).map
        (fun r => (printEvents r.2, r.1.wc.nbItem.getD 0 0)) = some (c4events, 2)) :=
  ⟨fun p => c4_run default_writer default_writer_tame id p,
   fun p => c4_run compact_writer compact_writer_tame id p,
   fun p => c4_run csv_writer csv_writer_tame id p,
   fun p => c4_run flat_writer flat_writer_tame id p⟩
